import Mathlib

/-!
# Verification of the PNTS point-cloud decode pipeline and the filesystem tileset source

This file gives a shallow embedding of `PntsPointClouds.create` (the decode
pipeline of `src/contentProcessing/pointClouds/PntsPointClouds.ts`) and of
`TilesetSourceFs` (`src/tilesetData/TilesetSourceFs.ts`), and proves the
frozen claims about them.

Numbers decoded from binary data are modelled as rationals (`ℚ`); byte
buffers are lists of naturals. Code of the repository that is not part of
the given sources (the `TileTableData` reader, the `Colors` and
`AttributeCompression` codecs, the `DefaultPointCloud` sink, the external
Draco decoder, and the `fs`/`path` modules) is modelled from the spec, or
abstracted into explicit parameters where the spec leaves it pluggable;
each such definition carries a doc comment saying so.
-/

/-- A binary payload: an immutable byte sequence addressed by byte offset. -/
abbrev ByteBuffer := List Nat

/-- Modelled from the spec: little-endian assembly of `width` bytes starting
at `offset` into an unsigned integer (§4.1: "little-endian"). The spec
prescribes a range error, detected lazily, when a read would pass the
buffer end (§4.1, §7); this model is total and reads missing bytes as
zero, so range errors are outside it. Theorems that characterize which
errors a decode call raises are therefore scoped by
`quantizationReadsInBounds` to calls whose eager reads stay within the
buffer, the regime where the total reader and the program agree. -/
def readBytesLE (binary : ByteBuffer) (offset : Nat) : Nat → Nat
  | 0 => 0
  | width + 1 => binary.getD offset 0 + 256 * readBytesLE binary (offset + 1) width

/-- Reinterpret `v` (with `v < 2^bits`) as a two's-complement signed value. -/
def toSigned (bits v : Nat) : Int :=
  if v < 2 ^ (bits - 1) then (v : Int) else (v : Int) - 2 ^ bits

/-- Exact value of an IEEE-754 binary32 bit pattern as a rational
(NaN and infinities are mapped to 0). -/
def float32FromBits (b : Nat) : ℚ :=
  let sign : Nat := b / 2 ^ 31 % 2
  let expo : Nat := b / 2 ^ 23 % 2 ^ 8
  let frac : Nat := b % 2 ^ 23
  let sgn : ℚ := if sign = 1 then -1 else 1
  if expo = 0 then sgn * frac / 2 ^ 149
  else if expo = 255 then 0
  else sgn * (2 ^ 23 + frac) * 2 ^ expo / 2 ^ 150

/-- Exact value of an IEEE-754 binary64 bit pattern as a rational
(NaN and infinities are mapped to 0). -/
def float64FromBits (b : Nat) : ℚ :=
  let sign : Nat := b / 2 ^ 63 % 2
  let expo : Nat := b / 2 ^ 52 % 2 ^ 11
  let frac : Nat := b % 2 ^ 52
  let sgn : ℚ := if sign = 1 then -1 else 1
  if expo = 0 then sgn * frac / 2 ^ 1074
  else if expo = 2047 then 0
  else sgn * (2 ^ 52 + frac) * 2 ^ expo / 2 ^ 1075

/-- The legacy component datatypes of the feature/batch table
(the strings "BYTE", "UNSIGNED_BYTE", ... in the source). -/
inductive LegacyComponentType where
  | BYTE | UNSIGNED_BYTE | SHORT | UNSIGNED_SHORT
  | INT | UNSIGNED_INT | FLOAT | DOUBLE
deriving DecidableEq, Repr

/-- Modelled from the spec (§4.1): byte width of one component
(1/2/4/8 for the byte/short/float-or-int32/double families). -/
def LegacyComponentType.byteSize : LegacyComponentType → Nat
  | .BYTE => 1
  | .UNSIGNED_BYTE => 1
  | .SHORT => 2
  | .UNSIGNED_SHORT => 2
  | .INT => 4
  | .UNSIGNED_INT => 4
  | .FLOAT => 4
  | .DOUBLE => 8

/-- Modelled from the spec (§4.1): decode the little-endian bit pattern of
one component into a number. -/
def LegacyComponentType.decode (t : LegacyComponentType) (raw : Nat) : ℚ :=
  match t with
  | .BYTE => (toSigned 8 raw : ℚ)
  | .UNSIGNED_BYTE => (raw : ℚ)
  | .SHORT => (toSigned 16 raw : ℚ)
  | .UNSIGNED_SHORT => (raw : ℚ)
  | .INT => (toSigned 32 raw : ℚ)
  | .UNSIGNED_INT => (raw : ℚ)
  | .FLOAT => float32FromBits raw
  | .DOUBLE => float64FromBits raw

/-- The legacy array types of the feature/batch table
(the strings "SCALAR", "VEC2", "VEC3", "VEC4" in the source). -/
inductive LegacyType where
  | SCALAR | VEC2 | VEC3 | VEC4
deriving DecidableEq, Repr

/-- Modelled from the spec (§4.1): the tuple length of a legacy array type. -/
def LegacyType.componentCount : LegacyType → Nat
  | .SCALAR => 1
  | .VEC2 => 2
  | .VEC3 => 3
  | .VEC4 => 4

namespace TileTableData

/-- Modelled from the spec (§4.1, the `TileTableData` reader is not among the
given sources): lookup table from legacy component-datatype name to canonical
numeric-type name (the source comments show "UNSIGNED_SHORT" maps to
"UINT16", "FLOAT" to "FLOAT32", and so on). -/
def convertLegacyComponentTypeToComponentType : LegacyComponentType → String
  | .BYTE => "INT8"
  | .UNSIGNED_BYTE => "UINT8"
  | .SHORT => "INT16"
  | .UNSIGNED_SHORT => "UINT16"
  | .INT => "INT32"
  | .UNSIGNED_INT => "UINT32"
  | .FLOAT => "FLOAT32"
  | .DOUBLE => "FLOAT64"

/-- Modelled from the spec (§4.1): lookup table from legacy array-type name
to canonical element-type name. -/
def convertLegacyTypeToType : LegacyType → String
  | .SCALAR => "SCALAR"
  | .VEC2 => "VEC2"
  | .VEC3 => "VEC3"
  | .VEC4 => "VEC4"

/-- Modelled from the spec (§4.1, `TileTableData.createNumericArrayIterable`):
a sequence of `numPoints` fixed-length tuples read from `binary` starting at
`byteOffset`; element byte width is component width times tuple length,
stride equals element width, no padding, little-endian. -/
def createNumericArrayIterable (legacyType : LegacyType)
    (legacyComponentType : LegacyComponentType) (binary : ByteBuffer)
    (byteOffset numPoints : Nat) : List (List ℚ) :=
  let k := legacyType.componentCount
  let w := legacyComponentType.byteSize
  (List.range numPoints).map fun i =>
    (List.range k).map fun c =>
      legacyComponentType.decode (readBytesLE binary (byteOffset + (i * k + c) * w) w)

/-- Modelled from the spec (§4.1, `TileTableData.createNumericScalarIterable`):
the same read as `createNumericArrayIterable` but yielding the components as
a flat sequence of scalars. -/
def createNumericScalarIterable (legacyType : LegacyType)
    (legacyComponentType : LegacyComponentType) (binary : ByteBuffer)
    (byteOffset numPoints : Nat) : List ℚ :=
  let k := legacyType.componentCount
  let w := legacyComponentType.byteSize
  (List.range (numPoints * k)).map fun i =>
    legacyComponentType.decode (readBytesLE binary (byteOffset + i * w) w)

end TileTableData

/-- A feature-table property that is either an inline number array in the
JSON header or a reference into the binary body (the schema allows both for
the global properties RTC_CENTER, CONSTANT_RGBA, QUANTIZED_VOLUME_OFFSET
and QUANTIZED_VOLUME_SCALE). -/
inductive NumberArrayProp where
  | inline (values : List ℚ)
  | binary (byteOffset : Nat)
deriving DecidableEq, Repr

/-- Modelled from the spec (`TileTableData.obtainNumberArray` is not among
the given sources): obtain a number array of `count` components of the given
component datatype, either taken directly from an inline JSON array or read
from the binary body at the referenced byte offset. -/
def TileTableData.obtainNumberArray (binary : ByteBuffer) (prop : NumberArrayProp)
    (count : Nat) (componentType : LegacyComponentType) : List ℚ :=
  match prop with
  | .inline values => values
  | .binary byteOffset =>
    (List.range count).map fun i =>
      componentType.decode
        (readBytesLE binary (byteOffset + i * componentType.byteSize) componentType.byteSize)

/-- Modelled from the spec (`TileTableData.obtainRtcCenter`): decode the
RTC_CENTER property as 3 floats. -/
def TileTableData.obtainRtcCenter (prop : NumberArrayProp) (binary : ByteBuffer) : List ℚ :=
  TileTableData.obtainNumberArray binary prop 3 .FLOAT

/-- A reference into the feature-table binary body: `{byteOffset}`. -/
structure BinaryBodyOffset where
  byteOffset : Nat
deriving DecidableEq, Repr

/-- The BATCH_ID field descriptor: a binary body reference with an optional
declared component datatype. -/
structure BatchIdDescriptor where
  byteOffset : Nat
  componentType : Option LegacyComponentType
deriving DecidableEq, Repr

/-- The PNTS feature table, with the recognized key set of §6. The
3DTILES_draco_point_compression extension block is not represented here:
the result of the external Draco decoder is passed to `create` directly
(see `PntsPointClouds.create`). -/
structure PntsFeatureTable where
  POINTS_LENGTH : Nat
  POSITION : Option BinaryBodyOffset := none
  POSITION_QUANTIZED : Option BinaryBodyOffset := none
  NORMAL : Option BinaryBodyOffset := none
  NORMAL_OCT16P : Option BinaryBodyOffset := none
  RGBA : Option BinaryBodyOffset := none
  RGB : Option BinaryBodyOffset := none
  RGB565 : Option BinaryBodyOffset := none
  CONSTANT_RGBA : Option NumberArrayProp := none
  BATCH_ID : Option BatchIdDescriptor := none
  BATCH_LENGTH : Option Nat := none
  RTC_CENTER : Option NumberArrayProp := none
  QUANTIZED_VOLUME_OFFSET : Option NumberArrayProp := none
  QUANTIZED_VOLUME_SCALE : Option NumberArrayProp := none
deriving DecidableEq, Repr

/-- Whether a number-array property can be read without passing the buffer
end: inline arrays always can; a binary-body reference needs
`byteOffset + count * componentWidth` within the buffer (§4.1). -/
def numberArrayPropInBounds (binary : ByteBuffer) (prop : NumberArrayProp)
    (count : Nat) (componentType : LegacyComponentType) : Prop :=
  match prop with
  | .inline _ => True
  | .binary byteOffset => byteOffset + count * componentType.byteSize ≤ binary.length

/-- The scope under which the total reader model and the program agree on
which errors a no-compression decode call raises: the quantization volume
offset and scale are the only binary-body references read eagerly before
the last format-error site (they are read in step 2 when POSITION is
absent; RTC_CENTER and CONSTANT_RGBA are read only in steps 6-7, after
every format-error check), so when those reads stay within the buffer no
range error can preempt a format error. -/
def quantizationReadsInBounds (featureTable : PntsFeatureTable)
    (binary : ByteBuffer) : Prop :=
  featureTable.POSITION = none →
    ∀ o s, featureTable.QUANTIZED_VOLUME_OFFSET = some o →
      featureTable.QUANTIZED_VOLUME_SCALE = some s →
      numberArrayPropInBounds binary o 3 .FLOAT ∧
        numberArrayPropInBounds binary s 3 .FLOAT

/-- A batch-table binary body reference: `{byteOffset, componentType, type}`. -/
structure BatchTableBinaryBodyReference where
  byteOffset : Nat
  componentType : LegacyComponentType
  type : LegacyType
deriving DecidableEq, Repr

/-- A batch-table property value: either a binary-body reference or an
inline JSON value (array of numbers). -/
inductive BatchTableValue where
  | reference (ref : BatchTableBinaryBodyReference)
  | inlineValue (values : List ℚ)
deriving DecidableEq, Repr

/-- The PNTS batch table: its named properties, and the property/stream map
of its own 3DTILES_draco_point_compression extension (if present). -/
structure BatchTable where
  properties : List (String × BatchTableValue) := []
  dracoProperties : Option (List (String × Nat)) := none
deriving DecidableEq, Repr

/-- Lookup of a named batch-table property (`batchTable[propertyName]`). -/
def BatchTable.findProperty (bt : BatchTable) (name : String) : Option BatchTableValue :=
  (bt.properties.find? fun e => e.1 = name).map (·.2)

/-- Modelled from the spec (`TileTableData.isBatchTableBinaryBodyReference`):
whether a batch-table property value is a binary-body reference. -/
def TileTableData.isBatchTableBinaryBodyReference : Option BatchTableValue → Bool
  | some (.reference _) => true
  | _ => false

/-- Modelled from the spec (`BatchTables.obtainDracoPropertyNames`): the
names of the properties listed in the batch table's
3DTILES_draco_point_compression extension. -/
def BatchTables.obtainDracoPropertyNames (bt : BatchTable) : List String :=
  (bt.dracoProperties.getD []).map (·.1)

/-- Per-attribute metadata of the external Draco decoder result:
`{byteOffset, componentDatatype}`. -/
structure DracoAttributeInfo where
  byteOffset : Nat
  componentDatatype : LegacyComponentType
deriving DecidableEq, Repr

/-- One decoded attribute of the external Draco decoder result:
decoded bytes plus attribute metadata. -/
structure DracoAttribute where
  attributeData : ByteBuffer
  attributeInfo : DracoAttributeInfo
deriving DecidableEq, Repr

/-- The Compressed-Attribute Result: a mapping from compressed-stream
attribute name to decoded attribute. -/
abbrev DracoDecoderResult := List (String × DracoAttribute)

/-- Lookup in a Draco decoder result (`dracoDecoderResult[name]`). -/
def DracoDecoderResult.find (r : DracoDecoderResult) (name : String) : Option DracoAttribute :=
  (r.find? fun e => e.1 = name).map (·.2)

/-- The element values of one sink attribute: a sequence of scalars or a
sequence of fixed-size tuples. -/
inductive AttributeValues where
  | scalars (vs : List ℚ)
  | arrays (vs : List (List ℚ))
deriving DecidableEq, Repr

/-- One named attribute of the sink, tagged with its declared element type
and component datatype (§3). -/
structure PointAttribute where
  type : String
  componentType : String
  values : AttributeValues
deriving DecidableEq, Repr

/-- Lookup by name in an attribute association list. -/
def lookupAttr : List (String × PointAttribute) → String → Option PointAttribute
  | [], _ => none
  | (n, a) :: rest, name => if n = name then some a else lookupAttr rest name

/-- Modelled from the spec (§4.2, `DefaultPointCloud` is not among the given
sources): the Point Attribute Sink — named attributes plus the two optional
global slots. -/
structure DefaultPointCloud where
  attributes : List (String × PointAttribute) := []
  globalPosition : Option (List ℚ) := none
  globalColor : Option (List ℚ) := none
deriving DecidableEq, Repr

/-- The errors a decode call can fail with: `tileFormatError` models a
thrown `TileFormatError`; `duplicateAttribute` models the spec-§4.2 failure
of `addAttribute` when the name is already present (not a format error —
§7 enumerates the format-error causes and duplicate names are not one). -/
inductive DecodeError where
  | tileFormatError (message : String)
  | duplicateAttribute (name : String)
deriving DecidableEq, Repr

/-- The fresh sink created at the start of one decode call. -/
def emptyPointCloud : DefaultPointCloud := {}

/-- `getAttribute`: the full record of a named attribute, if present. -/
def DefaultPointCloud.getAttribute (pc : DefaultPointCloud) (name : String) :
    Option PointAttribute :=
  lookupAttr pc.attributes name

/-- `getAttributeValues(name) -> sequence | absent` (§4.2). -/
def DefaultPointCloud.getAttributeValues (pc : DefaultPointCloud) (name : String) :
    Option AttributeValues :=
  (pc.getAttribute name).map (·.values)

/-- Modelled from the spec (§4.2): `addAttribute(name, elementType,
componentType, values)`; fails if `name` is already present. -/
def DefaultPointCloud.addAttribute (pc : DefaultPointCloud) (name type componentType : String)
    (values : AttributeValues) : Except DecodeError DefaultPointCloud :=
  if (pc.getAttribute name).isSome then .error (.duplicateAttribute name)
  else .ok { pc with attributes := pc.attributes ++ [(name, ⟨type, componentType, values⟩)] }

/-- Modelled from the spec (§4.2): `setPositions` stores the position
sequence as the canonical POSITION attribute (float VEC3). -/
def DefaultPointCloud.setPositions (pc : DefaultPointCloud) (positions : List (List ℚ)) :
    Except DecodeError DefaultPointCloud :=
  pc.addAttribute "POSITION" "VEC3" "FLOAT32" (.arrays positions)

/-- Modelled from the spec (§4.2): `setNormals` stores the normal sequence
as the canonical NORMAL attribute (float VEC3). -/
def DefaultPointCloud.setNormals (pc : DefaultPointCloud) (normals : List (List ℚ)) :
    Except DecodeError DefaultPointCloud :=
  pc.addAttribute "NORMAL" "VEC3" "FLOAT32" (.arrays normals)

/-- Modelled from the spec (§4.2): `setNormalizedLinearColors` stores the
color sequence as the canonical COLOR_0 attribute (float VEC4). -/
def DefaultPointCloud.setNormalizedLinearColors (pc : DefaultPointCloud)
    (colors : List (List ℚ)) : Except DecodeError DefaultPointCloud :=
  pc.addAttribute "COLOR_0" "VEC4" "FLOAT32" (.arrays colors)

/-- Modelled from the spec (§4.2): assign the global color slot. -/
def DefaultPointCloud.setNormalizedLinearGlobalColor (pc : DefaultPointCloud)
    (color : Option (List ℚ)) : DefaultPointCloud :=
  { pc with globalColor := color }

/-- Modelled from the spec (§4.2): assign the global position slot. -/
def DefaultPointCloud.setGlobalPosition (pc : DefaultPointCloud)
    (position : Option (List ℚ)) : DefaultPointCloud :=
  { pc with globalPosition := position }

/-- The external pure functions the pipeline delegates to: the pluggable
gamma-to-linear color transfer (§4.3b leaves the exact curve externally
documented) and the oct-decode of normals (§4.3a, `AttributeCompression`
is not among the given sources; its result involves a square-root
normalization that has no exact rational form). Theorems quantify over
these, so they hold for any choice. -/
structure Externals where
  gammaToLinear : ℚ → ℚ
  octDecode : List ℚ → List ℚ

namespace Colors

/-- Modelled from the spec (§4.3b, the `Colors` codec is not among the given
sources): standard RGBA bytes to normalized-linear RGBA; the transfer `g`
is applied to the color components, alpha is normalized linearly. -/
def standardRGBAToNormalizedLinearRGBA (g : ℚ → ℚ) (c : List ℚ) : List ℚ :=
  [g (c.getD 0 0 / 255), g (c.getD 1 0 / 255), g (c.getD 2 0 / 255), c.getD 3 0 / 255]

/-- Modelled from the spec (§4.3b): standard RGB bytes to normalized-linear
RGBA; alpha is set to 1.0. -/
def standardRGBToNormalizedLinearRGBA (g : ℚ → ℚ) (c : List ℚ) : List ℚ :=
  [g (c.getD 0 0 / 255), g (c.getD 1 0 / 255), g (c.getD 2 0 / 255), 1]

/-- Modelled from the spec (§4.3b): a packed 16-bit 5/6/5 word unpacked to
standard RGB first, then converted to normalized-linear RGBA with alpha 1.0.
The word arrives as a nonnegative integral rational from the scalar reader. -/
def standardRGB565ToNormalizedLinearRGBA (g : ℚ → ℚ) (w : ℚ) : List ℚ :=
  let n : Nat := w.num.toNat
  let r5 : Nat := n / 2 ^ 11 % 2 ^ 5
  let g6 : Nat := n / 2 ^ 5 % 2 ^ 6
  let b5 : Nat := n % 2 ^ 5
  [g ((r5 : ℚ) / 31), g ((g6 : ℚ) / 63), g ((b5 : ℚ) / 31), 1]

end Colors

namespace PntsPointClouds

/-- `PntsPointClouds.obtainQuantizationOffsetScale`: returns the quantization
volume offset and scale (3 floats each), or `none` when either
QUANTIZED_VOLUME_OFFSET or QUANTIZED_VOLUME_SCALE is absent. -/
def obtainQuantizationOffsetScale (featureTable : PntsFeatureTable)
    (featureTableBinary : ByteBuffer) : Option (List ℚ × List ℚ) :=
  match featureTable.QUANTIZED_VOLUME_OFFSET with
  | none => none
  | some off =>
    match featureTable.QUANTIZED_VOLUME_SCALE with
    | none => none
    | some scl =>
      some (TileTableData.obtainNumberArray featureTableBinary off 3 .FLOAT,
            TileTableData.obtainNumberArray featureTableBinary scl 3 .FLOAT)

/-- `PntsPointClouds.createPositionsInternal`: raw float VEC3 positions. -/
def createPositionsInternal (binary : ByteBuffer) (byteOffset numPoints : Nat) :
    List (List ℚ) :=
  TileTableData.createNumericArrayIterable .VEC3 .FLOAT binary byteOffset numPoints

/-- `PntsPointClouds.createQuantizedPositionsInternal`: unsigned 16-bit VEC3
quantized positions. -/
def createQuantizedPositionsInternal (binary : ByteBuffer) (byteOffset numPoints : Nat) :
    List (List ℚ) :=
  TileTableData.createNumericArrayIterable .VEC3 .UNSIGNED_SHORT binary byteOffset numPoints

/-- `PntsPointClouds.createNormalsInternal`: raw float VEC3 normals. -/
def createNormalsInternal (binary : ByteBuffer) (byteOffset numPoints : Nat) :
    List (List ℚ) :=
  TileTableData.createNumericArrayIterable .VEC3 .FLOAT binary byteOffset numPoints

/-- `PntsPointClouds.createOctEncodedNormalsInternal`: unsigned byte VEC2
oct-encoded normals. -/
def createOctEncodedNormalsInternal (binary : ByteBuffer) (byteOffset numPoints : Nat) :
    List (List ℚ) :=
  TileTableData.createNumericArrayIterable .VEC2 .UNSIGNED_BYTE binary byteOffset numPoints

/-- `PntsPointClouds.createColorsStandardRGBInternal`: unsigned byte VEC3 colors. -/
def createColorsStandardRGBInternal (binary : ByteBuffer) (byteOffset numPoints : Nat) :
    List (List ℚ) :=
  TileTableData.createNumericArrayIterable .VEC3 .UNSIGNED_BYTE binary byteOffset numPoints

/-- `PntsPointClouds.createColorsStandardRGBAInternal`: unsigned byte VEC4 colors. -/
def createColorsStandardRGBAInternal (binary : ByteBuffer) (byteOffset numPoints : Nat) :
    List (List ℚ) :=
  TileTableData.createNumericArrayIterable .VEC4 .UNSIGNED_BYTE binary byteOffset numPoints

/-- `PntsPointClouds.createColorsStandardRGB656Internal`: unsigned short
scalar (packed 16-bit) colors. -/
def createColorsStandardRGB656Internal (binary : ByteBuffer) (byteOffset numPoints : Nat) :
    List ℚ :=
  TileTableData.createNumericScalarIterable .SCALAR .UNSIGNED_SHORT binary byteOffset numPoints

/-- `PntsPointClouds.createBatchIdsInternal`: scalar batch IDs of the given
legacy component type. -/
def createBatchIdsInternal (binary : ByteBuffer) (byteOffset : Nat)
    (legacyComponentType : LegacyComponentType) (numPoints : Nat) : List ℚ :=
  TileTableData.createNumericScalarIterable .SCALAR legacyComponentType binary byteOffset numPoints

/-- `PntsPointClouds.createDequantization`: the per-point dequantization
function `input * scale / 65535 + offset` built from the volume offset and
scale. -/
def createDequantization (volumeOffset volumeScale : List ℚ) : List ℚ → List ℚ :=
  let scaleX := volumeScale.getD 0 0 / 65535
  let scaleY := volumeScale.getD 1 0 / 65535
  let scaleZ := volumeScale.getD 2 0 / 65535
  let offsetX := volumeOffset.getD 0 0
  let offsetY := volumeOffset.getD 1 0
  let offsetZ := volumeOffset.getD 2 0
  fun input =>
    [input.getD 0 0 * scaleX + offsetX,
     input.getD 1 0 * scaleY + offsetY,
     input.getD 2 0 * scaleZ + offsetZ]

/-- `PntsPointClouds.createPositions`: POSITION as raw float VEC3 if present;
else POSITION_QUANTIZED dequantized with a zero offset (requires the
quantization volume offset and scale, else a format error); else a format
error. -/
def createPositions (featureTable : PntsFeatureTable) (binary : ByteBuffer) :
    Except DecodeError (List (List ℚ)) :=
  let numPoints := featureTable.POINTS_LENGTH
  match featureTable.POSITION with
  | some position =>
    .ok (createPositionsInternal binary position.byteOffset numPoints)
  | none =>
    match featureTable.POSITION_QUANTIZED with
    | some positionQuantized =>
      match obtainQuantizationOffsetScale featureTable binary with
      | none =>
        .error (.tileFormatError
          "The feature table contains POSITION_QUANTIZED, but not QUANTIZED_VOLUME_OFFSET and QUANTIZED_VOLUME_OFFSET")
      | some quantization =>
        let quantizedPositions :=
          createQuantizedPositionsInternal binary positionQuantized.byteOffset numPoints
        let offset : List ℚ := [0, 0, 0]
        let dequantization := createDequantization offset quantization.2
        .ok (quantizedPositions.map dequantization)
    | none =>
      .error (.tileFormatError
        "The feature table contains neither POSITION nor POSITION_QUANTIZED")

/-- `PntsPointClouds.obtainGlobalPosition`: RTC_CENTER under the y-up-to-z-up
axis swap, plus the quantization volume offset under the same swap;
`none` when neither is present. -/
def obtainGlobalPosition (featureTable : PntsFeatureTable)
    (featureTableBinary : ByteBuffer) : Option (List ℚ) :=
  let fromRtc : Option (List ℚ) :=
    match featureTable.RTC_CENTER with
    | some rtc =>
      let rtcCenter := TileTableData.obtainRtcCenter rtc featureTableBinary
      some [rtcCenter.getD 0 0, rtcCenter.getD 2 0, -(rtcCenter.getD 1 0)]
    | none => none
  match obtainQuantizationOffsetScale featureTable featureTableBinary with
  | some quantization =>
    let base := fromRtc.getD [0, 0, 0]
    some [base.getD 0 0 + quantization.1.getD 0 0,
          base.getD 1 0 + quantization.1.getD 2 0,
          base.getD 2 0 + -(quantization.1.getD 1 0)]
  | none => fromRtc

/-- `PntsPointClouds.createNormals`: NORMAL as raw float VEC3 if present;
else NORMAL_OCT16P oct-decoded; else `none`. -/
def createNormals (featureTable : PntsFeatureTable) (binary : ByteBuffer)
    (ext : Externals) : Option (List (List ℚ)) :=
  let numPoints := featureTable.POINTS_LENGTH
  match featureTable.NORMAL with
  | some normal =>
    some (createNormalsInternal binary normal.byteOffset numPoints)
  | none =>
    match featureTable.NORMAL_OCT16P with
    | some oct =>
      some ((createOctEncodedNormalsInternal binary oct.byteOffset numPoints).map ext.octDecode)
    | none => none

/-- `PntsPointClouds.createNormalizedLinearColors`: the first present of
RGBA, RGB, RGB565 decoded and converted to normalized-linear RGBA;
`none` when none of them is present. -/
def createNormalizedLinearColors (featureTable : PntsFeatureTable) (binary : ByteBuffer)
    (g : ℚ → ℚ) : Option (List (List ℚ)) :=
  let numPoints := featureTable.POINTS_LENGTH
  match featureTable.RGBA with
  | some rgba =>
    some ((createColorsStandardRGBAInternal binary rgba.byteOffset numPoints).map
      (Colors.standardRGBAToNormalizedLinearRGBA g))
  | none =>
    match featureTable.RGB with
    | some rgb =>
      some ((createColorsStandardRGBInternal binary rgb.byteOffset numPoints).map
        (Colors.standardRGBToNormalizedLinearRGBA g))
    | none =>
      match featureTable.RGB565 with
      | some rgb565 =>
        some ((createColorsStandardRGB656Internal binary rgb565.byteOffset numPoints).map
          (Colors.standardRGB565ToNormalizedLinearRGBA g))
      | none => none

/-- `PntsPointClouds.createGlobalNormalizedLinearColor`: the CONSTANT_RGBA
value (4 unsigned bytes) converted to normalized-linear, or `none`. -/
def createGlobalNormalizedLinearColor (featureTable : PntsFeatureTable)
    (binary : ByteBuffer) (g : ℚ → ℚ) : Option (List ℚ) :=
  match featureTable.CONSTANT_RGBA with
  | none => none
  | some constant =>
    let constantRGBA := TileTableData.obtainNumberArray binary constant 4 .UNSIGNED_BYTE
    some (Colors.standardRGBAToNormalizedLinearRGBA g constantRGBA)

/-- `PntsPointClouds.createBatchIds`: the raw BATCH_ID values, `none` when
BATCH_ID is absent, and a format error when BATCH_ID is present but
BATCH_LENGTH is not; the component datatype defaults to UNSIGNED_SHORT. -/
def createBatchIds (featureTable : PntsFeatureTable) (binary : ByteBuffer) :
    Except DecodeError (Option (List ℚ)) :=
  match featureTable.BATCH_ID with
  | none => .ok none
  | some batchId =>
    match featureTable.BATCH_LENGTH with
    | none => .error (.tileFormatError "Found BATCH_ID but no BATCH_LENGTH")
    | some _ =>
      let numPoints := featureTable.POINTS_LENGTH
      let legacyComponentType := batchId.componentType.getD .UNSIGNED_SHORT
      .ok (some (createBatchIdsInternal binary batchId.byteOffset legacyComponentType numPoints))

/-- `PntsPointClouds.obtainBatchIdComponentType`: the canonical component
type of the BATCH_ID data, defaulting to unsigned 16-bit when the descriptor
declares none. -/
def obtainBatchIdComponentType (featureTable : PntsFeatureTable) : Option String :=
  match featureTable.BATCH_ID with
  | none => none
  | some batchId =>
    some (TileTableData.convertLegacyComponentTypeToComponentType
      (batchId.componentType.getD .UNSIGNED_SHORT))

/-- Step 1a of `assignDracoDecodedAttributes`: assign the Draco-decoded
positions, if present. -/
def assignDracoPositions (numPoints : Nat) (r : DracoDecoderResult)
    (pc : DefaultPointCloud) : Except DecodeError DefaultPointCloud :=
  match r.find "POSITION" with
  | some dracoPositions =>
    pc.setPositions (createPositionsInternal dracoPositions.attributeData
      dracoPositions.attributeInfo.byteOffset numPoints)
  | none => .ok pc

/-- Step 1b of `assignDracoDecodedAttributes`: assign the Draco-decoded
normals, if present. -/
def assignDracoNormals (numPoints : Nat) (r : DracoDecoderResult)
    (pc : DefaultPointCloud) : Except DecodeError DefaultPointCloud :=
  match r.find "NORMAL" with
  | some dracoNormals =>
    pc.setNormals (createNormalsInternal dracoNormals.attributeData
      dracoNormals.attributeInfo.byteOffset numPoints)
  | none => .ok pc

/-- Step 1c of `assignDracoDecodedAttributes`: assign the Draco-decoded
colors from RGB data and then from RGBA data, each if present (as in the
source, the RGBA store is not guarded by the RGB one). -/
def assignDracoColors (numPoints : Nat) (r : DracoDecoderResult) (ext : Externals)
    (pc : DefaultPointCloud) : Except DecodeError DefaultPointCloud :=
  let afterRGB : Except DecodeError DefaultPointCloud :=
    match r.find "RGB" with
    | some dracoRGB =>
      pc.setNormalizedLinearColors
        ((createColorsStandardRGBInternal dracoRGB.attributeData
          dracoRGB.attributeInfo.byteOffset numPoints).map
          (Colors.standardRGBToNormalizedLinearRGBA ext.gammaToLinear))
    | none => .ok pc
  match afterRGB with
  | .error e => .error e
  | .ok pc =>
    match r.find "RGBA" with
    | some dracoRGBA =>
      pc.setNormalizedLinearColors
        ((createColorsStandardRGBAInternal dracoRGBA.attributeData
          dracoRGBA.attributeInfo.byteOffset numPoints).map
          (Colors.standardRGBAToNormalizedLinearRGBA ext.gammaToLinear))
    | none => .ok pc

/-- Step 1d of `assignDracoDecodedAttributes`: assign the Draco-decoded
BATCH_ID values as the `_FEATURE_ID_0` attribute, if present. -/
def assignDracoBatchIds (numPoints : Nat) (r : DracoDecoderResult)
    (pc : DefaultPointCloud) : Except DecodeError DefaultPointCloud :=
  match r.find "BATCH_ID" with
  | some dracoBatchId =>
    let legacyComponentType := dracoBatchId.attributeInfo.componentDatatype
    let batchIds := createBatchIdsInternal dracoBatchId.attributeData
      dracoBatchId.attributeInfo.byteOffset legacyComponentType numPoints
    let componentType :=
      TileTableData.convertLegacyComponentTypeToComponentType legacyComponentType
    pc.addAttribute "_FEATURE_ID_0" "SCALAR" componentType (.scalars batchIds)
  | none => .ok pc

/-- Step 1e of `assignDracoDecodedAttributes`: for each property name listed
in the batch table's draco extension, if the Draco result contains it and
the batch-table entry is a binary-body reference, add the decoded values as
a generic attribute (element type from the batch table's declared legacy
type, component type from the result's component datatype). -/
def assignDracoGenericAttributes (numPoints : Nat) (r : DracoDecoderResult)
    (bt : BatchTable) : List String → DefaultPointCloud → Except DecodeError DefaultPointCloud
  | [], pc => .ok pc
  | propertyName :: rest, pc =>
    match r.find propertyName with
    | none => assignDracoGenericAttributes numPoints r bt rest pc
    | some dracoProperty =>
      match bt.findProperty propertyName with
      | some (.reference ref) =>
        let legacyType := ref.type
        let legacyComponentType := dracoProperty.attributeInfo.componentDatatype
        let propertyValues := TileTableData.createNumericScalarIterable legacyType
          legacyComponentType dracoProperty.attributeData
          dracoProperty.attributeInfo.byteOffset numPoints
        let type := TileTableData.convertLegacyTypeToType legacyType
        let componentType :=
          TileTableData.convertLegacyComponentTypeToComponentType legacyComponentType
        match pc.addAttribute propertyName type componentType (.scalars propertyValues) with
        | .error e => .error e
        | .ok pc => assignDracoGenericAttributes numPoints r bt rest pc
      | _ => assignDracoGenericAttributes numPoints r bt rest pc

/-- `PntsPointClouds.assignDracoDecodedAttributes`: store every attribute of
the Draco decoder result into the sink (canonical slots first, then the
generic batch-table properties). -/
def assignDracoDecodedAttributes (pc : DefaultPointCloud) (numPoints : Nat)
    (dracoDecoderResult : DracoDecoderResult) (batchTable : BatchTable)
    (ext : Externals) : Except DecodeError DefaultPointCloud :=
  match assignDracoPositions numPoints dracoDecoderResult pc with
  | .error e => .error e
  | .ok pc =>
    match assignDracoNormals numPoints dracoDecoderResult pc with
    | .error e => .error e
    | .ok pc =>
      match assignDracoColors numPoints dracoDecoderResult ext pc with
      | .error e => .error e
      | .ok pc =>
        match assignDracoBatchIds numPoints dracoDecoderResult pc with
        | .error e => .error e
        | .ok pc =>
          assignDracoGenericAttributes numPoints dracoDecoderResult batchTable
            (BatchTables.obtainDracoPropertyNames batchTable) pc

/-- Step 1 of `create`: when a Draco decoder result is present, assign its
attributes to the fresh sink. The external Draco decoder itself is not part
of the given sources; its result (or its absence, when the feature table has
no 3DTILES_draco_point_compression extension) is an input of the model. -/
def dracoPhase (featureTable : PntsFeatureTable) (batchTable : BatchTable)
    (draco : Option DracoDecoderResult) (ext : Externals) :
    Except DecodeError DefaultPointCloud :=
  match draco with
  | none => .ok emptyPointCloud
  | some r =>
    assignDracoDecodedAttributes emptyPointCloud featureTable.POINTS_LENGTH r batchTable ext

/-- Step 2 of `create`: assign the positions when the POSITION slot is still
empty. -/
def assignPositionsStep (featureTable : PntsFeatureTable) (binary : ByteBuffer)
    (pc : DefaultPointCloud) : Except DecodeError DefaultPointCloud :=
  if (pc.getAttributeValues "POSITION").isNone then
    match createPositions featureTable binary with
    | .error e => .error e
    | .ok positions => pc.setPositions positions
  else .ok pc

/-- Step 3 of `create`: assign the normals when the NORMAL slot is still
empty and normal data is present. -/
def assignNormalsStep (featureTable : PntsFeatureTable) (binary : ByteBuffer)
    (ext : Externals) (pc : DefaultPointCloud) : Except DecodeError DefaultPointCloud :=
  if (pc.getAttributeValues "NORMAL").isNone then
    match createNormals featureTable binary ext with
    | some normals => pc.setNormals normals
    | none => .ok pc
  else .ok pc

/-- Step 4 of `create`: assign the colors when the COLOR_0 slot is still
empty and color data is present. -/
def assignColorsStep (featureTable : PntsFeatureTable) (binary : ByteBuffer)
    (ext : Externals) (pc : DefaultPointCloud) : Except DecodeError DefaultPointCloud :=
  if (pc.getAttributeValues "COLOR_0").isNone then
    match createNormalizedLinearColors featureTable binary ext.gammaToLinear with
    | some colors => pc.setNormalizedLinearColors colors
    | none => .ok pc
  else .ok pc

/-- Step 5 of `create`: assign the batch IDs as the `_FEATURE_ID_0`
attribute when that attribute is still empty. -/
def assignBatchIdsStep (featureTable : PntsFeatureTable) (binary : ByteBuffer)
    (pc : DefaultPointCloud) : Except DecodeError DefaultPointCloud :=
  if (pc.getAttributeValues "_FEATURE_ID_0").isNone then
    match createBatchIds featureTable binary with
    | .error e => .error e
    | .ok none => .ok pc
    | .ok (some batchIds) =>
      match obtainBatchIdComponentType featureTable with
      | some componentType =>
        pc.addAttribute "_FEATURE_ID_0" "SCALAR" componentType (.scalars batchIds)
      | none => .ok pc
  else .ok pc

/-- Step 6 of `create`: when the COLOR_0 slot is still empty, assign the
global color (from CONSTANT_RGBA, possibly absent). -/
def assignGlobalColorStep (featureTable : PntsFeatureTable) (binary : ByteBuffer)
    (ext : Externals) (pc : DefaultPointCloud) : DefaultPointCloud :=
  if (pc.getAttributeValues "COLOR_0").isNone then
    pc.setNormalizedLinearGlobalColor
      (createGlobalNormalizedLinearColor featureTable binary ext.gammaToLinear)
  else pc

/-- Step 7 of `create`: compute and assign the global position. -/
def assignGlobalPositionStep (featureTable : PntsFeatureTable) (binary : ByteBuffer)
    (pc : DefaultPointCloud) : DefaultPointCloud :=
  pc.setGlobalPosition (obtainGlobalPosition featureTable binary)

/-- Steps 2-5 of `create`: the raw (non-compressed) attribute decodes. -/
def rawPhases (featureTable : PntsFeatureTable) (binary : ByteBuffer) (ext : Externals)
    (pc : DefaultPointCloud) : Except DecodeError DefaultPointCloud :=
  match assignPositionsStep featureTable binary pc with
  | .error e => .error e
  | .ok pc =>
    match assignNormalsStep featureTable binary ext pc with
    | .error e => .error e
    | .ok pc =>
      match assignColorsStep featureTable binary ext pc with
      | .error e => .error e
      | .ok pc => assignBatchIdsStep featureTable binary pc

/-- Steps 6-7 of `create`: the global color and global position. -/
def finishPhases (featureTable : PntsFeatureTable) (binary : ByteBuffer) (ext : Externals)
    (pc : DefaultPointCloud) : DefaultPointCloud :=
  assignGlobalPositionStep featureTable binary (assignGlobalColorStep featureTable binary ext pc)

/-- Steps 2-7 of `create`: everything after the Draco phase. -/
def createFromDracoPhase (featureTable : PntsFeatureTable) (binary : ByteBuffer)
    (ext : Externals) (pc : DefaultPointCloud) : Except DecodeError DefaultPointCloud :=
  match rawPhases featureTable binary ext pc with
  | .error e => .error e
  | .ok pc => .ok (finishPhases featureTable binary ext pc)

/-- `PntsPointClouds.create`: the decode pipeline. `draco` is the result of
`obtainDracoDecodedAttributes` (the bridge to the external Draco decoder):
`none` models a feature table without the 3DTILES_draco_point_compression
extension, `some r` models a successful external decode with result `r`. -/
def create (featureTable : PntsFeatureTable) (featureTableBinary : ByteBuffer)
    (batchTable : BatchTable) (draco : Option DracoDecoderResult) (ext : Externals) :
    Except DecodeError DefaultPointCloud :=
  match dracoPhase featureTable batchTable draco ext with
  | .error e => .error e
  | .ok pc => createFromDracoPhase featureTable featureTableBinary ext pc

end PntsPointClouds

/-- The error thrown by the tileset-data layer (`TilesetError`). -/
inductive TilesetError where
  | tilesetError (message : String)
deriving DecidableEq, Repr

/-- `TilesetSourceFs`: its only state is the optional full name of the
directory that contains the tileset (set while the source is opened). -/
structure TilesetSourceFs where
  fullInputName : Option String
deriving DecidableEq, Repr

/-- Modelled from the spec and the `fs` module interface (external to the
given sources): the file system, as a partial map from full file names to
file contents; `existsSync` is definedness, `readFileSync` is application. -/
abbrev FileSystem := String → Option ByteBuffer

/-- Modelled: `path.join(dir, key)` (the `path` module is external);
joining with the separator. -/
def joinPath (dir key : String) : String := dir ++ "/" ++ key

/-- `TilesetSourceFs.open` (named `openSource` here because `open` is a Lean
keyword): fails when the source is already opened, otherwise records the
directory name. -/
def TilesetSourceFs.openSource (s : TilesetSourceFs) (fullInputName : String) :
    Except TilesetError TilesetSourceFs :=
  match s.fullInputName with
  | some _ => .error (.tilesetError "Source already opened")
  | none => .ok ⟨some fullInputName⟩

/-- `TilesetSourceFs.getKeys`: fails when the source is not opened; the
recursive file enumeration and relativization (external `Iterables.overFiles`
and `Paths.relativize`) are abstracted into the `listKeys` parameter. -/
def TilesetSourceFs.getKeys (listKeys : String → List String) (s : TilesetSourceFs) :
    Except TilesetError (List String) :=
  match s.fullInputName with
  | none => .error (.tilesetError "Source is not opened. Call open first.")
  | some dir => .ok (listKeys dir)

/-- `TilesetSourceFs.getValue`: fails when the source is not opened; returns
`none` (undefined) when the joined file name does not exist, and the file
contents otherwise. -/
def TilesetSourceFs.getValue (fs : FileSystem) (s : TilesetSourceFs) (key : String) :
    Except TilesetError (Option ByteBuffer) :=
  match s.fullInputName with
  | none => .error (.tilesetError "Source is not opened. Call open first.")
  | some dir =>
    match fs (joinPath dir key) with
    | none => .ok none
    | some data => .ok (some data)

/-- `TilesetSourceFs.close`: fails when the source is not opened, otherwise
clears the input name (after which the source can be opened again). -/
def TilesetSourceFs.close (s : TilesetSourceFs) : Except TilesetError TilesetSourceFs :=
  match s.fullInputName with
  | none => .error (.tilesetError "Source is not opened. Call open first.")
  | some _ => .ok ⟨none⟩

/-- Whether the (optional) mesh-compression result provides an attribute of
the given name. -/
def dracoResultProvides (draco : Option DracoDecoderResult) (name : String) : Bool :=
  match draco with
  | none => false
  | some r => (r.find name).isSome

/-- Concrete externals for evaluation: the identity transfer and decode. -/
def wExt : Externals := ⟨id, id⟩

/-- An empty batch table. -/
def wBt : BatchTable := {}

/-- A feature table with one quantized position and inline volume offset and
scale (scale components are 2, 3 and 4 times 65535). -/
def wFtQ : PntsFeatureTable :=
  { POINTS_LENGTH := 1
    POSITION_QUANTIZED := some ⟨0⟩
    QUANTIZED_VOLUME_OFFSET := some (.inline [100, 200, 300])
    QUANTIZED_VOLUME_SCALE := some (.inline [131070, 196605, 262140]) }

/-- A binary body holding the quantized position (1, 2, 3) as u16 LE. -/
def wBinQ : ByteBuffer := [1, 0, 2, 0, 3, 0]

/-- The sink decoded from `wFtQ`/`wBinQ`. -/
def wPcQ : DefaultPointCloud :=
  (PntsPointClouds.create wFtQ wBinQ wBt none wExt).toOption.getD emptyPointCloud

/-- A feature table with both POSITION and POSITION_QUANTIZED, but without
the quantization volume offset and scale. -/
def wFtBoth : PntsFeatureTable :=
  { POINTS_LENGTH := 0, POSITION := some ⟨0⟩, POSITION_QUANTIZED := some ⟨0⟩ }

/-- A feature table with BATCH_ID but no BATCH_LENGTH. -/
def wFtBadBatch : PntsFeatureTable :=
  { POINTS_LENGTH := 0, POSITION := some ⟨0⟩, BATCH_ID := some ⟨0, none⟩ }

/-- A feature table with no per-point fields at all (zero points). -/
def wFt0 : PntsFeatureTable := { POINTS_LENGTH := 0 }

/-- A Draco decoder result providing only POSITION. -/
def wDracoPos : DracoDecoderResult := [("POSITION", ⟨[], ⟨0, .FLOAT⟩⟩)]

/-- The sink state after the Draco phase for `wFt0`/`wDracoPos`. -/
def wPcDraco1 : DefaultPointCloud :=
  (PntsPointClouds.dracoPhase wFt0 wBt (some wDracoPos) wExt).toOption.getD emptyPointCloud

/-- The sink decoded from `wFt0` with the `wDracoPos` compression result. -/
def wPcDraco : DefaultPointCloud :=
  (PntsPointClouds.create wFt0 [] wBt (some wDracoPos) wExt).toOption.getD emptyPointCloud

/-- A feature table with one point, a raw position and an RGBA color. -/
def wFtRGBA : PntsFeatureTable :=
  { POINTS_LENGTH := 1, POSITION := some ⟨0⟩, RGBA := some ⟨12⟩ }

/-- Binary body for `wFtRGBA`: one zero position, then the RGBA bytes
(255, 0, 255, 255). -/
def wBinRGBA : ByteBuffer := List.replicate 12 0 ++ [255, 0, 255, 255]

/-- The sink decoded from `wFtRGBA`/`wBinRGBA`. -/
def wPcRGBA : DefaultPointCloud :=
  (PntsPointClouds.create wFtRGBA wBinRGBA wBt none wExt).toOption.getD emptyPointCloud

/-- A feature table with an inline RTC_CENTER of [1, 2, 3]. -/
def wFtRtc : PntsFeatureTable :=
  { POINTS_LENGTH := 0, POSITION := some ⟨0⟩, RTC_CENTER := some (.inline [1, 2, 3]) }

/-- The sink decoded from `wFtRtc`. -/
def wPcRtc : DefaultPointCloud :=
  (PntsPointClouds.create wFtRtc [] wBt none wExt).toOption.getD emptyPointCloud

/-- A feature table with an inline CONSTANT_RGBA of (255, 255, 0, 255) and
no per-point color. -/
def wFtConst : PntsFeatureTable :=
  { POINTS_LENGTH := 0, POSITION := some ⟨0⟩, CONSTANT_RGBA := some (.inline [255, 255, 0, 255]) }

/-- The sink state after the raw phases for `wFtConst`. -/
def wPc5Const : DefaultPointCloud :=
  (PntsPointClouds.rawPhases wFtConst [] wExt emptyPointCloud).toOption.getD emptyPointCloud

/-- A Draco decoder result providing only a generic property "intensity". -/
def wDracoIntensity : DracoDecoderResult := [("intensity", ⟨[], ⟨0, .UNSIGNED_BYTE⟩⟩)]

/-- A feature table with zero points and a raw position field. -/
def wFtPos0 : PntsFeatureTable := { POINTS_LENGTH := 0, POSITION := some ⟨0⟩ }

/-- A feature table with one point and a raw position field. -/
def wFtPos1 : PntsFeatureTable := { POINTS_LENGTH := 1, POSITION := some ⟨0⟩ }

/-- A 12-byte all-zero binary body (one zero float position). -/
def wBin12 : ByteBuffer := List.replicate 12 0

/-- A batch table declaring the draco-compressed binary-body property
"intensity" (scalar of unsigned bytes). -/
def wBt8 : BatchTable :=
  { properties := [("intensity", .reference ⟨0, .UNSIGNED_BYTE, .SCALAR⟩)]
    dracoProperties := some [("intensity", 0)] }

/-- A Draco decoder result providing "intensity" with decoded byte 42. -/
def wDraco8 : DracoDecoderResult := [("intensity", ⟨[42], ⟨0, .UNSIGNED_BYTE⟩⟩)]

/-- The sink decoded from `wFtPos1`/`wBin12` with the `wDraco8` result and
the `wBt8` batch table. -/
def wPc8 : DefaultPointCloud :=
  (PntsPointClouds.create wFtPos1 wBin12 wBt8 (some wDraco8) wExt).toOption.getD emptyPointCloud

/-- A feature table with one point, a raw position, and a BATCH_ID field of
unspecified component datatype at offset 12, with BATCH_LENGTH 2. -/
def wFtBatch : PntsFeatureTable :=
  { POINTS_LENGTH := 1
    POSITION := some ⟨0⟩
    BATCH_ID := some ⟨12, none⟩
    BATCH_LENGTH := some 2 }

/-- Binary body for `wFtBatch`: one zero position, then the batch id 7 as
u16 LE. -/
def wBinBatch : ByteBuffer := List.replicate 12 0 ++ [7, 0]

/-- The sink decoded from `wFtBatch`/`wBinBatch`. -/
def wPcBatch : DefaultPointCloud :=
  (PntsPointClouds.create wFtBatch wBinBatch wBt none wExt).toOption.getD emptyPointCloud

/-- Decidable equality for `Except` results, by cases. -/
instance {e a : Type} [DecidableEq e] [DecidableEq a] : DecidableEq (Except e a) := fun x y =>
  match x, y with
  | .error u, .error v =>
    if h : u = v then .isTrue (by rw [h]) else .isFalse (fun hh => h (Except.error.inj hh))
  | .ok u, .ok v =>
    if h : u = v then .isTrue (by rw [h]) else .isFalse (fun hh => h (Except.ok.inj hh))
  | .error _, .ok _ => .isFalse (by intro hh; cases hh)
  | .ok _, .error _ => .isFalse (by intro hh; cases hh)

/-- A step of the pipeline preserves every attribute binding already in the
sink: nothing already stored is removed or overwritten. -/
def PreservesAttrs (step : DefaultPointCloud → Except DecodeError DefaultPointCloud) : Prop :=
  ∀ pc pc' name a, step pc = .ok pc' →
    lookupAttr pc.attributes name = some a → lookupAttr pc'.attributes name = some a

theorem lookupAttr_append (l₁ l₂ : List (String × PointAttribute)) (name : String) :
    lookupAttr (l₁ ++ l₂) name =
      match lookupAttr l₁ name with
      | some a => some a
      | none => lookupAttr l₂ name := by
  induction l₁ with
  | nil => simp [lookupAttr]
  | cons e rest ih =>
    obtain ⟨n, a⟩ := e
    by_cases h : n = name
    · simp [lookupAttr, h]
    · simp [lookupAttr, h, ih]

theorem addAttribute_ok_none {pc : DefaultPointCloud} {nm t c : String} {v : AttributeValues}
    {pc' : DefaultPointCloud} (h : pc.addAttribute nm t c v = .ok pc') :
    pc.getAttribute nm = none := by
  unfold DefaultPointCloud.addAttribute at h
  split at h
  · exact absurd h (by simp)
  · next hcond => exact Option.not_isSome_iff_eq_none.mp hcond

theorem addAttribute_ok_attrs {pc : DefaultPointCloud} {nm t c : String} {v : AttributeValues}
    {pc' : DefaultPointCloud} (h : pc.addAttribute nm t c v = .ok pc') :
    pc'.attributes = pc.attributes ++ [(nm, ⟨t, c, v⟩)] ∧
      pc'.globalPosition = pc.globalPosition ∧ pc'.globalColor = pc.globalColor := by
  unfold DefaultPointCloud.addAttribute at h
  split at h
  · exact absurd h (by simp)
  · cases h
    exact ⟨rfl, rfl, rfl⟩

theorem addAttribute_ok_lookup {pc : DefaultPointCloud} {nm t c : String} {v : AttributeValues}
    {pc' : DefaultPointCloud} (h : pc.addAttribute nm t c v = .ok pc') (name : String) :
    pc'.getAttribute name = if nm = name then some ⟨t, c, v⟩ else pc.getAttribute name := by
  have hnone := addAttribute_ok_none h
  have hattrs := (addAttribute_ok_attrs h).1
  unfold DefaultPointCloud.getAttribute at hnone ⊢
  rw [hattrs, lookupAttr_append]
  by_cases hn : nm = name
  · subst hn
    rw [hnone]
    simp [lookupAttr]
  · cases hl : lookupAttr pc.attributes name with
    | some a => simp [hn, hl]
    | none => simp [lookupAttr, hn, hl]

theorem addAttribute_mono {pc : DefaultPointCloud} {nm t c : String} {v : AttributeValues}
    {pc' : DefaultPointCloud} (h : pc.addAttribute nm t c v = .ok pc') {name : String}
    {a : PointAttribute} (hsome : pc.getAttribute name = some a) :
    pc'.getAttribute name = some a := by
  rw [addAttribute_ok_lookup h]
  by_cases hn : nm = name
  · subst hn
    rw [addAttribute_ok_none h] at hsome
    exact absurd hsome (by simp)
  · simp [hn, hsome]

namespace PntsPointClouds

theorem assignDracoPositions_untouched {n : Nat} {r : DracoDecoderResult}
    {pc pc' : DefaultPointCloud} {name : String}
    (hp : name = "POSITION" → r.find "POSITION" = none)
    (h : assignDracoPositions n r pc = .ok pc') :
    pc'.getAttribute name = pc.getAttribute name := by
  cases hfind : r.find "POSITION" with
  | none =>
    simp only [assignDracoPositions, hfind] at h
    cases h
    rfl
  | some dp =>
    simp only [assignDracoPositions, hfind, DefaultPointCloud.setPositions] at h
    rw [addAttribute_ok_lookup h]
    by_cases hn : "POSITION" = name
    · rw [hp hn.symm] at hfind
      exact absurd hfind (by simp)
    · simp [hn]

theorem assignDracoPositions_mono {n : Nat} {r : DracoDecoderResult}
    {pc pc' : DefaultPointCloud} {name : String} {a : PointAttribute}
    (h : assignDracoPositions n r pc = .ok pc')
    (hsome : pc.getAttribute name = some a) : pc'.getAttribute name = some a := by
  cases hfind : r.find "POSITION" with
  | none =>
    simp only [assignDracoPositions, hfind] at h
    cases h
    exact hsome
  | some dp =>
    simp only [assignDracoPositions, hfind, DefaultPointCloud.setPositions] at h
    exact addAttribute_mono h hsome

theorem assignDracoPositions_filled {n : Nat} {r : DracoDecoderResult}
    {pc pc' : DefaultPointCloud} {dp : DracoAttribute}
    (hfind : r.find "POSITION" = some dp)
    (h : assignDracoPositions n r pc = .ok pc') :
    pc'.getAttribute "POSITION" =
      some ⟨"VEC3", "FLOAT32",
        .arrays (createPositionsInternal dp.attributeData dp.attributeInfo.byteOffset n)⟩ := by
  simp only [assignDracoPositions, hfind, DefaultPointCloud.setPositions] at h
  rw [addAttribute_ok_lookup h]
  simp

theorem assignDracoNormals_untouched {n : Nat} {r : DracoDecoderResult}
    {pc pc' : DefaultPointCloud} {name : String}
    (hp : name = "NORMAL" → r.find "NORMAL" = none)
    (h : assignDracoNormals n r pc = .ok pc') :
    pc'.getAttribute name = pc.getAttribute name := by
  cases hfind : r.find "NORMAL" with
  | none =>
    simp only [assignDracoNormals, hfind] at h
    cases h
    rfl
  | some dp =>
    simp only [assignDracoNormals, hfind, DefaultPointCloud.setNormals] at h
    rw [addAttribute_ok_lookup h]
    by_cases hn : "NORMAL" = name
    · rw [hp hn.symm] at hfind
      exact absurd hfind (by simp)
    · simp [hn]

theorem assignDracoNormals_mono {n : Nat} {r : DracoDecoderResult}
    {pc pc' : DefaultPointCloud} {name : String} {a : PointAttribute}
    (h : assignDracoNormals n r pc = .ok pc')
    (hsome : pc.getAttribute name = some a) : pc'.getAttribute name = some a := by
  cases hfind : r.find "NORMAL" with
  | none =>
    simp only [assignDracoNormals, hfind] at h
    cases h
    exact hsome
  | some dp =>
    simp only [assignDracoNormals, hfind, DefaultPointCloud.setNormals] at h
    exact addAttribute_mono h hsome

theorem assignDracoColors_untouched {n : Nat} {r : DracoDecoderResult} {ext : Externals}
    {pc pc' : DefaultPointCloud} {name : String}
    (hp : name = "COLOR_0" → r.find "RGB" = none ∧ r.find "RGBA" = none)
    (h : assignDracoColors n r ext pc = .ok pc') :
    pc'.getAttribute name = pc.getAttribute name := by
  by_cases hn : name = "COLOR_0"
  · subst hn
    obtain ⟨hrgb, hrgba⟩ := hp rfl
    simp only [assignDracoColors, hrgb, hrgba] at h
    cases h
    rfl
  · cases hrgb : r.find "RGB" with
    | none =>
      simp only [assignDracoColors, hrgb] at h
      cases hrgba : r.find "RGBA" with
      | none =>
        rw [hrgba] at h
        cases h
        rfl
      | some dp =>
        rw [hrgba] at h
        simp only [DefaultPointCloud.setNormalizedLinearColors] at h
        rw [addAttribute_ok_lookup h]
        have hne : ¬("COLOR_0" = name) := fun he => hn he.symm
        simp [hne]
    | some dp =>
      simp only [assignDracoColors, hrgb, DefaultPointCloud.setNormalizedLinearColors] at h
      cases hmid : pc.addAttribute "COLOR_0" "VEC4" "FLOAT32"
          (.arrays ((createColorsStandardRGBInternal dp.attributeData
            dp.attributeInfo.byteOffset n).map
            (Colors.standardRGBToNormalizedLinearRGBA ext.gammaToLinear))) with
      | error e =>
        rw [hmid] at h
        exact absurd h (by simp)
      | ok pcmid =>
        rw [hmid] at h
        have h1 := addAttribute_ok_lookup hmid name
        cases hrgba : r.find "RGBA" with
        | none =>
          rw [hrgba] at h
          cases h
          rw [h1]
          have hne : ¬("COLOR_0" = name) := fun he => hn he.symm
          simp [hne]
        | some dpa =>
          rw [hrgba] at h
          simp only [DefaultPointCloud.setNormalizedLinearColors] at h
          rw [addAttribute_ok_lookup h, h1]
          have hne : ¬("COLOR_0" = name) := fun he => hn he.symm
          simp [hne]

theorem assignDracoColors_mono {n : Nat} {r : DracoDecoderResult} {ext : Externals}
    {pc pc' : DefaultPointCloud} {name : String} {a : PointAttribute}
    (h : assignDracoColors n r ext pc = .ok pc')
    (hsome : pc.getAttribute name = some a) : pc'.getAttribute name = some a := by
  simp only [assignDracoColors] at h
  cases hrgb : r.find "RGB" with
  | none =>
    rw [hrgb] at h
    cases hrgba : r.find "RGBA" with
    | none =>
      rw [hrgba] at h
      cases h
      exact hsome
    | some dpa =>
      rw [hrgba] at h
      simp only [DefaultPointCloud.setNormalizedLinearColors] at h
      exact addAttribute_mono h hsome
  | some dp =>
    rw [hrgb] at h
    simp only [DefaultPointCloud.setNormalizedLinearColors] at h
    cases hmid : pc.addAttribute "COLOR_0" "VEC4" "FLOAT32"
        (.arrays ((createColorsStandardRGBInternal dp.attributeData
          dp.attributeInfo.byteOffset n).map
          (Colors.standardRGBToNormalizedLinearRGBA ext.gammaToLinear))) with
    | error e =>
      rw [hmid] at h
      exact absurd h (by simp)
    | ok pcmid =>
      rw [hmid] at h
      have h1 := addAttribute_mono hmid hsome
      cases hrgba : r.find "RGBA" with
      | none =>
        rw [hrgba] at h
        cases h
        exact h1
      | some dpa =>
        rw [hrgba] at h
        simp only [DefaultPointCloud.setNormalizedLinearColors] at h
        exact addAttribute_mono h h1

theorem assignDracoBatchIds_untouched {n : Nat} {r : DracoDecoderResult}
    {pc pc' : DefaultPointCloud} {name : String}
    (hp : name = "_FEATURE_ID_0" → r.find "BATCH_ID" = none)
    (h : assignDracoBatchIds n r pc = .ok pc') :
    pc'.getAttribute name = pc.getAttribute name := by
  cases hfind : r.find "BATCH_ID" with
  | none =>
    simp only [assignDracoBatchIds, hfind] at h
    cases h
    rfl
  | some dp =>
    simp only [assignDracoBatchIds, hfind] at h
    rw [addAttribute_ok_lookup h]
    by_cases hn : "_FEATURE_ID_0" = name
    · rw [hp hn.symm] at hfind
      exact absurd hfind (by simp)
    · simp [hn]

theorem assignDracoBatchIds_mono {n : Nat} {r : DracoDecoderResult}
    {pc pc' : DefaultPointCloud} {name : String} {a : PointAttribute}
    (h : assignDracoBatchIds n r pc = .ok pc')
    (hsome : pc.getAttribute name = some a) : pc'.getAttribute name = some a := by
  cases hfind : r.find "BATCH_ID" with
  | none =>
    simp only [assignDracoBatchIds, hfind] at h
    cases h
    exact hsome
  | some dp =>
    simp only [assignDracoBatchIds, hfind] at h
    exact addAttribute_mono h hsome

end PntsPointClouds

namespace PntsPointClouds

theorem assignDracoGenericAttributes_untouched {n : Nat} {r : DracoDecoderResult}
    {bt : BatchTable} {name : String} (hfind : r.find name = none) :
    ∀ {names : List String} {pc pc' : DefaultPointCloud},
      assignDracoGenericAttributes n r bt names pc = .ok pc' →
      pc'.getAttribute name = pc.getAttribute name := by
  intro names
  induction names with
  | nil =>
    intro pc pc' h
    simp only [assignDracoGenericAttributes] at h
    cases h
    rfl
  | cons propertyName rest ih =>
    intro pc pc' h
    simp only [assignDracoGenericAttributes] at h
    cases hp : r.find propertyName with
    | none =>
      simp only [hp] at h
      exact ih h
    | some dp =>
      simp only [hp] at h
      have hne : propertyName ≠ name := by
        intro he
        rw [he, hfind] at hp
        cases hp
      cases hv : bt.findProperty propertyName with
      | none =>
        simp only [hv] at h
        exact ih h
      | some v =>
        simp only [hv] at h
        cases v with
        | inlineValue vs => exact ih h
        | reference ref =>
          cases hadd : pc.addAttribute propertyName
              (TileTableData.convertLegacyTypeToType ref.type)
              (TileTableData.convertLegacyComponentTypeToComponentType
                dp.attributeInfo.componentDatatype)
              (.scalars (TileTableData.createNumericScalarIterable ref.type
                dp.attributeInfo.componentDatatype dp.attributeData
                dp.attributeInfo.byteOffset n)) with
          | error e =>
            simp only [hadd] at h
            exact absurd h (by simp)
          | ok pcmid =>
            simp only [hadd] at h
            rw [ih h, addAttribute_ok_lookup hadd]
            simp [hne]

theorem assignDracoGenericAttributes_mono {n : Nat} {r : DracoDecoderResult}
    {bt : BatchTable} {name : String} {a : PointAttribute} :
    ∀ {names : List String} {pc pc' : DefaultPointCloud},
      assignDracoGenericAttributes n r bt names pc = .ok pc' →
      pc.getAttribute name = some a → pc'.getAttribute name = some a := by
  intro names
  induction names with
  | nil =>
    intro pc pc' h hsome
    simp only [assignDracoGenericAttributes] at h
    cases h
    exact hsome
  | cons propertyName rest ih =>
    intro pc pc' h hsome
    simp only [assignDracoGenericAttributes] at h
    cases hp : r.find propertyName with
    | none =>
      simp only [hp] at h
      exact ih h hsome
    | some dp =>
      simp only [hp] at h
      cases hv : bt.findProperty propertyName with
      | none =>
        simp only [hv] at h
        exact ih h hsome
      | some v =>
        simp only [hv] at h
        cases v with
        | inlineValue vs => exact ih h hsome
        | reference ref =>
          cases hadd : pc.addAttribute propertyName
              (TileTableData.convertLegacyTypeToType ref.type)
              (TileTableData.convertLegacyComponentTypeToComponentType
                dp.attributeInfo.componentDatatype)
              (.scalars (TileTableData.createNumericScalarIterable ref.type
                dp.attributeInfo.componentDatatype dp.attributeData
                dp.attributeInfo.byteOffset n)) with
          | error e =>
            simp only [hadd] at h
            exact absurd h (by simp)
          | ok pcmid =>
            simp only [hadd] at h
            exact ih h (addAttribute_mono hadd hsome)

theorem assignDracoGenericAttributes_added {n : Nat} {r : DracoDecoderResult}
    {bt : BatchTable} {name : String} {dp : DracoAttribute}
    {ref : BatchTableBinaryBodyReference}
    (hfind : r.find name = some dp)
    (href : bt.findProperty name = some (.reference ref)) :
    ∀ {names : List String} {pc pc' : DefaultPointCloud}, name ∈ names →
      assignDracoGenericAttributes n r bt names pc = .ok pc' →
      pc'.getAttribute name =
        some ⟨TileTableData.convertLegacyTypeToType ref.type,
          TileTableData.convertLegacyComponentTypeToComponentType
            dp.attributeInfo.componentDatatype,
          .scalars (TileTableData.createNumericScalarIterable ref.type
            dp.attributeInfo.componentDatatype dp.attributeData
            dp.attributeInfo.byteOffset n)⟩ := by
  intro names
  induction names with
  | nil =>
    intro pc pc' hmem
    cases hmem
  | cons propertyName rest ih =>
    intro pc pc' hmem h
    simp only [assignDracoGenericAttributes] at h
    by_cases hpn : propertyName = name
    · subst hpn
      simp only [hfind, href] at h
      cases hadd : pc.addAttribute propertyName
          (TileTableData.convertLegacyTypeToType ref.type)
          (TileTableData.convertLegacyComponentTypeToComponentType
            dp.attributeInfo.componentDatatype)
          (.scalars (TileTableData.createNumericScalarIterable ref.type
            dp.attributeInfo.componentDatatype dp.attributeData
            dp.attributeInfo.byteOffset n)) with
      | error e =>
        simp only [hadd] at h
        exact absurd h (by simp)
      | ok pcmid =>
        simp only [hadd] at h
        have hbound : pcmid.getAttribute propertyName =
            some ⟨TileTableData.convertLegacyTypeToType ref.type,
              TileTableData.convertLegacyComponentTypeToComponentType
                dp.attributeInfo.componentDatatype,
              .scalars (TileTableData.createNumericScalarIterable ref.type
                dp.attributeInfo.componentDatatype dp.attributeData
                dp.attributeInfo.byteOffset n)⟩ := by
          rw [addAttribute_ok_lookup hadd]
          simp
        exact assignDracoGenericAttributes_mono h hbound
    · have hmem' : name ∈ rest := by
        cases hmem with
        | head => exact absurd rfl hpn
        | tail _ hmem' => exact hmem'
      cases hp : r.find propertyName with
      | none =>
        simp only [hp] at h
        exact ih hmem' h
      | some dpx =>
        simp only [hp] at h
        cases hv : bt.findProperty propertyName with
        | none =>
          simp only [hv] at h
          exact ih hmem' h
        | some v =>
          simp only [hv] at h
          cases v with
          | inlineValue vs => exact ih hmem' h
          | reference refx =>
            cases hadd : pc.addAttribute propertyName
                (TileTableData.convertLegacyTypeToType refx.type)
                (TileTableData.convertLegacyComponentTypeToComponentType
                  dpx.attributeInfo.componentDatatype)
                (.scalars (TileTableData.createNumericScalarIterable refx.type
                  dpx.attributeInfo.componentDatatype dpx.attributeData
                  dpx.attributeInfo.byteOffset n)) with
            | error e =>
              simp only [hadd] at h
              exact absurd h (by simp)
            | ok pcmid =>
              simp only [hadd] at h
              exact ih hmem' h

end PntsPointClouds

namespace PntsPointClouds

theorem assignDraco_decompose {pc : DefaultPointCloud} {n : Nat} {r : DracoDecoderResult}
    {bt : BatchTable} {ext : Externals} {pc' : DefaultPointCloud}
    (h : assignDracoDecodedAttributes pc n r bt ext = .ok pc') :
    ∃ pca pcb pcc pcd,
      assignDracoPositions n r pc = .ok pca ∧
      assignDracoNormals n r pca = .ok pcb ∧
      assignDracoColors n r ext pcb = .ok pcc ∧
      assignDracoBatchIds n r pcc = .ok pcd ∧
      assignDracoGenericAttributes n r bt (BatchTables.obtainDracoPropertyNames bt) pcd =
        .ok pc' := by
  simp only [assignDracoDecodedAttributes] at h
  cases h1 : assignDracoPositions n r pc with
  | error e =>
    simp only [h1] at h
    exact absurd h (by simp)
  | ok pca =>
    simp only [h1] at h
    cases h2 : assignDracoNormals n r pca with
    | error e =>
      simp only [h2] at h
      exact absurd h (by simp)
    | ok pcb =>
      simp only [h2] at h
      cases h3 : assignDracoColors n r ext pcb with
      | error e =>
        simp only [h3] at h
        exact absurd h (by simp)
      | ok pcc =>
        simp only [h3] at h
        cases h4 : assignDracoBatchIds n r pcc with
        | error e =>
          simp only [h4] at h
          exact absurd h (by simp)
        | ok pcd =>
          simp only [h4] at h
          exact ⟨pca, pcb, pcc, pcd, rfl, h2, h3, h4, h⟩

theorem assignDraco_untouched {pc : DefaultPointCloud} {n : Nat} {r : DracoDecoderResult}
    {bt : BatchTable} {ext : Externals} {pc' : DefaultPointCloud} {name : String}
    (hfind : r.find name = none)
    (hcol : name = "COLOR_0" → r.find "RGB" = none ∧ r.find "RGBA" = none)
    (hbid : name = "_FEATURE_ID_0" → r.find "BATCH_ID" = none)
    (h : assignDracoDecodedAttributes pc n r bt ext = .ok pc') :
    pc'.getAttribute name = pc.getAttribute name := by
  obtain ⟨pca, pcb, pcc, pcd, h1, h2, h3, h4, h5⟩ := assignDraco_decompose h
  rw [assignDracoGenericAttributes_untouched hfind h5,
    assignDracoBatchIds_untouched hbid h4,
    assignDracoColors_untouched hcol h3,
    assignDracoNormals_untouched (fun he => he ▸ hfind) h2,
    assignDracoPositions_untouched (fun he => he ▸ hfind) h1]

theorem assignDraco_mono {pc : DefaultPointCloud} {n : Nat} {r : DracoDecoderResult}
    {bt : BatchTable} {ext : Externals} {pc' : DefaultPointCloud} {name : String}
    {a : PointAttribute}
    (h : assignDracoDecodedAttributes pc n r bt ext = .ok pc')
    (hsome : pc.getAttribute name = some a) : pc'.getAttribute name = some a := by
  obtain ⟨pca, pcb, pcc, pcd, h1, h2, h3, h4, h5⟩ := assignDraco_decompose h
  exact assignDracoGenericAttributes_mono h5
    (assignDracoBatchIds_mono h4
      (assignDracoColors_mono h3
        (assignDracoNormals_mono h2 (assignDracoPositions_mono h1 hsome))))

theorem assignDraco_position_filled {pc : DefaultPointCloud} {n : Nat}
    {r : DracoDecoderResult} {bt : BatchTable} {ext : Externals}
    {pc' : DefaultPointCloud} {dp : DracoAttribute}
    (hfind : r.find "POSITION" = some dp)
    (h : assignDracoDecodedAttributes pc n r bt ext = .ok pc') :
    pc'.getAttribute "POSITION" =
      some ⟨"VEC3", "FLOAT32",
        .arrays (createPositionsInternal dp.attributeData dp.attributeInfo.byteOffset n)⟩ := by
  obtain ⟨pca, pcb, pcc, pcd, h1, h2, h3, h4, h5⟩ := assignDraco_decompose h
  exact assignDracoGenericAttributes_mono h5
    (assignDracoBatchIds_mono h4
      (assignDracoColors_mono h3
        (assignDracoNormals_mono h2 (assignDracoPositions_filled hfind h1))))

theorem getAttributeValues_isNone (pc : DefaultPointCloud) (name : String) :
    (pc.getAttributeValues name).isNone = (pc.getAttribute name).isNone := by
  unfold DefaultPointCloud.getAttributeValues
  cases pc.getAttribute name <;> rfl

theorem assignPositionsStep_skip {ft : PntsFeatureTable} {bin : ByteBuffer}
    {pc : DefaultPointCloud} {a : PointAttribute}
    (hsome : pc.getAttribute "POSITION" = some a) :
    assignPositionsStep ft bin pc = .ok pc := by
  unfold assignPositionsStep
  rw [getAttributeValues_isNone, hsome]
  rfl

theorem assignPositionsStep_fill {ft : PntsFeatureTable} {bin : ByteBuffer}
    {pc : DefaultPointCloud} (hnone : pc.getAttribute "POSITION" = none) :
    assignPositionsStep ft bin pc =
      match createPositions ft bin with
      | .error e => .error e
      | .ok positions => pc.setPositions positions := by
  unfold assignPositionsStep
  rw [getAttributeValues_isNone, hnone]
  rfl

theorem assignPositionsStep_untouched {ft : PntsFeatureTable} {bin : ByteBuffer}
    {pc pc' : DefaultPointCloud} {name : String} (hne : name ≠ "POSITION")
    (h : assignPositionsStep ft bin pc = .ok pc') :
    pc'.getAttribute name = pc.getAttribute name := by
  unfold assignPositionsStep at h
  split at h
  · cases hcp : createPositions ft bin with
    | error e =>
      rw [hcp] at h
      exact absurd h (by simp)
    | ok positions =>
      rw [hcp] at h
      simp only [DefaultPointCloud.setPositions] at h
      rw [addAttribute_ok_lookup h]
      simp [Ne.symm hne]
  · cases h
    rfl

theorem assignPositionsStep_mono {ft : PntsFeatureTable} {bin : ByteBuffer}
    {pc pc' : DefaultPointCloud} {name : String} {a : PointAttribute}
    (h : assignPositionsStep ft bin pc = .ok pc')
    (hsome : pc.getAttribute name = some a) : pc'.getAttribute name = some a := by
  unfold assignPositionsStep at h
  split at h
  · cases hcp : createPositions ft bin with
    | error e =>
      rw [hcp] at h
      exact absurd h (by simp)
    | ok positions =>
      rw [hcp] at h
      simp only [DefaultPointCloud.setPositions] at h
      exact addAttribute_mono h hsome
  · cases h
    exact hsome

theorem assignNormalsStep_untouched {ft : PntsFeatureTable} {bin : ByteBuffer}
    {ext : Externals} {pc pc' : DefaultPointCloud} {name : String}
    (hne : name ≠ "NORMAL") (h : assignNormalsStep ft bin ext pc = .ok pc') :
    pc'.getAttribute name = pc.getAttribute name := by
  unfold assignNormalsStep at h
  split at h
  · cases hcn : createNormals ft bin ext with
    | none =>
      rw [hcn] at h
      cases h
      rfl
    | some normals =>
      rw [hcn] at h
      simp only [DefaultPointCloud.setNormals] at h
      rw [addAttribute_ok_lookup h]
      simp [Ne.symm hne]
  · cases h
    rfl

theorem assignNormalsStep_mono {ft : PntsFeatureTable} {bin : ByteBuffer}
    {ext : Externals} {pc pc' : DefaultPointCloud} {name : String} {a : PointAttribute}
    (h : assignNormalsStep ft bin ext pc = .ok pc')
    (hsome : pc.getAttribute name = some a) : pc'.getAttribute name = some a := by
  unfold assignNormalsStep at h
  split at h
  · cases hcn : createNormals ft bin ext with
    | none =>
      rw [hcn] at h
      cases h
      exact hsome
    | some normals =>
      rw [hcn] at h
      simp only [DefaultPointCloud.setNormals] at h
      exact addAttribute_mono h hsome
  · cases h
    exact hsome

theorem assignColorsStep_skip {ft : PntsFeatureTable} {bin : ByteBuffer}
    {ext : Externals} {pc : DefaultPointCloud} {a : PointAttribute}
    (hsome : pc.getAttribute "COLOR_0" = some a) :
    assignColorsStep ft bin ext pc = .ok pc := by
  unfold assignColorsStep
  rw [getAttributeValues_isNone, hsome]
  rfl

theorem assignColorsStep_fill {ft : PntsFeatureTable} {bin : ByteBuffer}
    {ext : Externals} {pc : DefaultPointCloud}
    (hnone : pc.getAttribute "COLOR_0" = none) :
    assignColorsStep ft bin ext pc =
      match createNormalizedLinearColors ft bin ext.gammaToLinear with
      | some colors => pc.setNormalizedLinearColors colors
      | none => .ok pc := by
  unfold assignColorsStep
  rw [getAttributeValues_isNone, hnone]
  rfl

theorem assignColorsStep_untouched {ft : PntsFeatureTable} {bin : ByteBuffer}
    {ext : Externals} {pc pc' : DefaultPointCloud} {name : String}
    (hne : name ≠ "COLOR_0") (h : assignColorsStep ft bin ext pc = .ok pc') :
    pc'.getAttribute name = pc.getAttribute name := by
  unfold assignColorsStep at h
  split at h
  · cases hcc : createNormalizedLinearColors ft bin ext.gammaToLinear with
    | none =>
      rw [hcc] at h
      cases h
      rfl
    | some colors =>
      rw [hcc] at h
      simp only [DefaultPointCloud.setNormalizedLinearColors] at h
      rw [addAttribute_ok_lookup h]
      simp [Ne.symm hne]
  · cases h
    rfl

theorem assignColorsStep_mono {ft : PntsFeatureTable} {bin : ByteBuffer}
    {ext : Externals} {pc pc' : DefaultPointCloud} {name : String} {a : PointAttribute}
    (h : assignColorsStep ft bin ext pc = .ok pc')
    (hsome : pc.getAttribute name = some a) : pc'.getAttribute name = some a := by
  unfold assignColorsStep at h
  split at h
  · cases hcc : createNormalizedLinearColors ft bin ext.gammaToLinear with
    | none =>
      rw [hcc] at h
      cases h
      exact hsome
    | some colors =>
      rw [hcc] at h
      simp only [DefaultPointCloud.setNormalizedLinearColors] at h
      exact addAttribute_mono h hsome
  · cases h
    exact hsome

theorem assignBatchIdsStep_untouched {ft : PntsFeatureTable} {bin : ByteBuffer}
    {pc pc' : DefaultPointCloud} {name : String}
    (hne : name ≠ "_FEATURE_ID_0") (h : assignBatchIdsStep ft bin pc = .ok pc') :
    pc'.getAttribute name = pc.getAttribute name := by
  unfold assignBatchIdsStep at h
  split at h
  · cases hcb : createBatchIds ft bin with
    | error e =>
      rw [hcb] at h
      exact absurd h (by simp)
    | ok obids =>
      rw [hcb] at h
      cases obids with
      | none =>
        cases h
        rfl
      | some batchIds =>
        cases hct : obtainBatchIdComponentType ft with
        | none =>
          simp only [hct] at h
          cases h
          rfl
        | some componentType =>
          simp only [hct] at h
          rw [addAttribute_ok_lookup h]
          simp [Ne.symm hne]
  · cases h
    rfl

theorem assignBatchIdsStep_mono {ft : PntsFeatureTable} {bin : ByteBuffer}
    {pc pc' : DefaultPointCloud} {name : String} {a : PointAttribute}
    (h : assignBatchIdsStep ft bin pc = .ok pc')
    (hsome : pc.getAttribute name = some a) : pc'.getAttribute name = some a := by
  unfold assignBatchIdsStep at h
  split at h
  · cases hcb : createBatchIds ft bin with
    | error e =>
      rw [hcb] at h
      exact absurd h (by simp)
    | ok obids =>
      rw [hcb] at h
      cases obids with
      | none =>
        cases h
        exact hsome
      | some batchIds =>
        cases hct : obtainBatchIdComponentType ft with
        | none =>
          simp only [hct] at h
          cases h
          exact hsome
        | some componentType =>
          simp only [hct] at h
          exact addAttribute_mono h hsome
  · cases h
    exact hsome

theorem finishPhases_attributes (ft : PntsFeatureTable) (bin : ByteBuffer)
    (ext : Externals) (pc : DefaultPointCloud) :
    (finishPhases ft bin ext pc).attributes = pc.attributes := by
  unfold finishPhases assignGlobalPositionStep assignGlobalColorStep
    DefaultPointCloud.setGlobalPosition DefaultPointCloud.setNormalizedLinearGlobalColor
  split <;> rfl

theorem finishPhases_globalPosition (ft : PntsFeatureTable) (bin : ByteBuffer)
    (ext : Externals) (pc : DefaultPointCloud) :
    (finishPhases ft bin ext pc).globalPosition = obtainGlobalPosition ft bin := by
  unfold finishPhases assignGlobalPositionStep DefaultPointCloud.setGlobalPosition
  rfl

theorem finishPhases_globalColor (ft : PntsFeatureTable) (bin : ByteBuffer)
    (ext : Externals) (pc : DefaultPointCloud) :
    (finishPhases ft bin ext pc).globalColor =
      if (pc.getAttributeValues "COLOR_0").isNone then
        createGlobalNormalizedLinearColor ft bin ext.gammaToLinear
      else pc.globalColor := by
  unfold finishPhases assignGlobalPositionStep assignGlobalColorStep
    DefaultPointCloud.setGlobalPosition DefaultPointCloud.setNormalizedLinearGlobalColor
  split <;> simp_all

theorem rawPhases_decompose {ft : PntsFeatureTable} {bin : ByteBuffer} {ext : Externals}
    {pc pc' : DefaultPointCloud} (h : rawPhases ft bin ext pc = .ok pc') :
    ∃ pca pcb pcc,
      assignPositionsStep ft bin pc = .ok pca ∧
      assignNormalsStep ft bin ext pca = .ok pcb ∧
      assignColorsStep ft bin ext pcb = .ok pcc ∧
      assignBatchIdsStep ft bin pcc = .ok pc' := by
  simp only [rawPhases] at h
  cases h1 : assignPositionsStep ft bin pc with
  | error e =>
    simp only [h1] at h
    exact absurd h (by simp)
  | ok pca =>
    simp only [h1] at h
    cases h2 : assignNormalsStep ft bin ext pca with
    | error e =>
    simp only [h2] at h
    exact absurd h (by simp)
    | ok pcb =>
      simp only [h2] at h
      cases h3 : assignColorsStep ft bin ext pcb with
      | error e =>
    simp only [h3] at h
    exact absurd h (by simp)
      | ok pcc =>
        simp only [h3] at h
        exact ⟨pca, pcb, pcc, rfl, h2, h3, h⟩

theorem rawPhases_mono {ft : PntsFeatureTable} {bin : ByteBuffer} {ext : Externals}
    {pc pc' : DefaultPointCloud} {name : String} {a : PointAttribute}
    (h : rawPhases ft bin ext pc = .ok pc')
    (hsome : pc.getAttribute name = some a) : pc'.getAttribute name = some a := by
  obtain ⟨pca, pcb, pcc, h1, h2, h3, h4⟩ := rawPhases_decompose h
  exact assignBatchIdsStep_mono h4
    (assignColorsStep_mono h3 (assignNormalsStep_mono h2 (assignPositionsStep_mono h1 hsome)))

theorem create_decompose {ft : PntsFeatureTable} {bin : ByteBuffer} {bt : BatchTable}
    {draco : Option DracoDecoderResult} {ext : Externals} {pc' : DefaultPointCloud}
    (h : create ft bin bt draco ext = .ok pc') :
    ∃ pc1 pc5,
      dracoPhase ft bt draco ext = .ok pc1 ∧
      rawPhases ft bin ext pc1 = .ok pc5 ∧
      pc' = finishPhases ft bin ext pc5 := by
  simp only [create] at h
  cases h1 : dracoPhase ft bt draco ext with
  | error e =>
    simp only [h1] at h
    exact absurd h (by simp)
  | ok pc1 =>
    simp only [h1, createFromDracoPhase] at h
    cases h2 : rawPhases ft bin ext pc1 with
    | error e =>
    simp only [h2] at h
    exact absurd h (by simp)
    | ok pc5 =>
      simp only [h2] at h
      cases h
      exact ⟨pc1, pc5, rfl, h2, rfl⟩

end PntsPointClouds

namespace PntsPointClouds

theorem emptyPointCloud_getAttribute (name : String) :
    emptyPointCloud.getAttribute name = none := rfl

theorem finishPhases_getAttribute (ft : PntsFeatureTable) (bin : ByteBuffer)
    (ext : Externals) (pc : DefaultPointCloud) (name : String) :
    (finishPhases ft bin ext pc).getAttribute name = pc.getAttribute name := by
  unfold DefaultPointCloud.getAttribute
  rw [finishPhases_attributes]

theorem dracoResultProvides_some_false {r : DracoDecoderResult} {name : String}
    (h : dracoResultProvides (some r) name = false) : r.find name = none := by
  simp only [dracoResultProvides] at h
  cases hf : r.find name with
  | none => rfl
  | some v =>
    rw [hf] at h
    simp at h

theorem dracoPhase_untouched {ft : PntsFeatureTable} {bt : BatchTable}
    {draco : Option DracoDecoderResult} {ext : Externals} {pc1 : DefaultPointCloud}
    {name : String}
    (hfind : dracoResultProvides draco name = false)
    (hcol : name = "COLOR_0" →
      dracoResultProvides draco "RGB" = false ∧ dracoResultProvides draco "RGBA" = false)
    (hbid : name = "_FEATURE_ID_0" → dracoResultProvides draco "BATCH_ID" = false)
    (h : dracoPhase ft bt draco ext = .ok pc1) :
    pc1.getAttribute name = none := by
  cases draco with
  | none =>
    simp only [dracoPhase] at h
    cases h
    exact emptyPointCloud_getAttribute name
  | some r =>
    simp only [dracoPhase] at h
    rw [assignDraco_untouched (dracoResultProvides_some_false hfind)
      (fun he => ⟨dracoResultProvides_some_false (hcol he).1,
        dracoResultProvides_some_false (hcol he).2⟩)
      (fun he => dracoResultProvides_some_false (hbid he)) h]
    exact emptyPointCloud_getAttribute name

theorem createDequantization_zero (volumeScale : List ℚ) :
    createDequantization [0, 0, 0] volumeScale = fun input =>
      [input.getD 0 0 * (volumeScale.getD 0 0 / 65535) + 0,
       input.getD 1 0 * (volumeScale.getD 1 0 / 65535) + 0,
       input.getD 2 0 * (volumeScale.getD 2 0 / 65535) + 0] := by
  funext input
  simp [createDequantization, List.getD]

/-- C1: for a decode call whose mesh-compression result did not provide
POSITION — if the feature table has POSITION, the sink's per-point positions
are the raw float VEC3 values read at the declared byte offset; if POSITION
is absent and POSITION_QUANTIZED is present with both QUANTIZED_VOLUME_OFFSET
and QUANTIZED_VOLUME_SCALE, each stored position component equals the
unsigned-16-bit quantized value times scale/65535 plus a zero offset (the
volume offset is not applied per-point); the POSITION branch applies
regardless of POSITION_QUANTIZED, so POSITION wins when both are present. -/
theorem c1_position_decode (ft : PntsFeatureTable) (bin : ByteBuffer) (bt : BatchTable)
    (draco : Option DracoDecoderResult) (ext : Externals) (pc : DefaultPointCloud)
    (hnp : dracoResultProvides draco "POSITION" = false)
    (hok : create ft bin bt draco ext = .ok pc) :
    (∀ d, ft.POSITION = some d →
      pc.getAttribute "POSITION" =
        some ⟨"VEC3", "FLOAT32",
          .arrays (createPositionsInternal bin d.byteOffset ft.POINTS_LENGTH)⟩) ∧
    (∀ d o s, ft.POSITION = none → ft.POSITION_QUANTIZED = some d →
      ft.QUANTIZED_VOLUME_OFFSET = some o → ft.QUANTIZED_VOLUME_SCALE = some s →
      pc.getAttribute "POSITION" =
        some ⟨"VEC3", "FLOAT32",
          .arrays ((createQuantizedPositionsInternal bin d.byteOffset
              ft.POINTS_LENGTH).map fun q =>
            [q.getD 0 0 * ((TileTableData.obtainNumberArray bin s 3 .FLOAT).getD 0 0 / 65535) + 0,
             q.getD 1 0 * ((TileTableData.obtainNumberArray bin s 3 .FLOAT).getD 1 0 / 65535) + 0,
             q.getD 2 0 * ((TileTableData.obtainNumberArray bin s 3 .FLOAT).getD 2 0 / 65535) + 0])⟩) := by
  obtain ⟨pc1, pc5, hdp, hraw, hpc⟩ := create_decompose hok
  have hpos1 : pc1.getAttribute "POSITION" = none :=
    dracoPhase_untouched hnp (fun he => absurd he (by decide))
      (fun he => absurd he (by decide)) hdp
  obtain ⟨pca, pcb, pcc, h1, h2, h3, h4⟩ := rawPhases_decompose hraw
  rw [assignPositionsStep_fill hpos1] at h1
  constructor
  · intro d hd
    have hcp : createPositions ft bin =
        .ok (createPositionsInternal bin d.byteOffset ft.POINTS_LENGTH) := by
      simp [createPositions, hd]
    rw [hcp] at h1
    simp only [DefaultPointCloud.setPositions] at h1
    have hfilled : pca.getAttribute "POSITION" =
        some ⟨"VEC3", "FLOAT32",
          .arrays (createPositionsInternal bin d.byteOffset ft.POINTS_LENGTH)⟩ := by
      rw [addAttribute_ok_lookup h1]
      simp
    rw [hpc, finishPhases_getAttribute]
    exact assignBatchIdsStep_mono h4 (assignColorsStep_mono h3 (assignNormalsStep_mono h2 hfilled))
  · intro d o s hnopos hd ho hs
    have hcp : createPositions ft bin =
        .ok ((createQuantizedPositionsInternal bin d.byteOffset ft.POINTS_LENGTH).map
          (createDequantization [0, 0, 0]
            (TileTableData.obtainNumberArray bin s 3 .FLOAT))) := by
      simp [createPositions, hnopos, hd, obtainQuantizationOffsetScale, ho, hs]
    rw [hcp] at h1
    simp only [DefaultPointCloud.setPositions] at h1
    have hfilled := addAttribute_ok_lookup h1 "POSITION"
    rw [if_pos rfl] at hfilled
    rw [createDequantization_zero] at hfilled
    rw [hpc, finishPhases_getAttribute]
    exact assignBatchIdsStep_mono h4 (assignColorsStep_mono h3 (assignNormalsStep_mono h2 hfilled))

end PntsPointClouds

namespace PntsPointClouds

/-- Witness for C1: the quantized table `wFtQ` (scale 2/3/4 times 65535,
volume offset (100, 200, 300)) with quantized point (1, 2, 3) stores the
position (2, 6, 12) — the scale is applied, the volume offset is not. -/
theorem c1_position_decode_witness :
    dracoResultProvides none "POSITION" = false ∧
    create wFtQ wBinQ wBt none wExt = .ok wPcQ ∧
    wPcQ.getAttribute "POSITION" =
      some ⟨"VEC3", "FLOAT32", .arrays [[2, 6, 12]]⟩ := by
  refine ⟨rfl, rfl, ?_⟩
  have h := (c1_position_decode wFtQ wBinQ wBt none wExt wPcQ rfl rfl).2
    ⟨0⟩ (.inline [100, 200, 300]) (.inline [131070, 196605, 262140]) rfl rfl rfl rfl
  rw [h]
  simp [createQuantizedPositionsInternal, TileTableData.createNumericArrayIterable,
    TileTableData.obtainNumberArray, LegacyType.componentCount, LegacyComponentType.byteSize,
    LegacyComponentType.decode, readBytesLE, wBinQ, wFtQ, List.range_succ, List.getD]
  norm_num

end PntsPointClouds


namespace PntsPointClouds

theorem addAttribute_ok_of_none {pc : DefaultPointCloud} {nm : String}
    (h : pc.getAttribute nm = none) (t c : String) (v : AttributeValues) :
    pc.addAttribute nm t c v =
      .ok { pc with attributes := pc.attributes ++ [(nm, ⟨t, c, v⟩)] } := by
  unfold DefaultPointCloud.addAttribute
  rw [h]
  rfl

theorem assignNormalsStep_exists_ok (ft : PntsFeatureTable) (bin : ByteBuffer)
    (ext : Externals) {pc : DefaultPointCloud} (h : pc.getAttribute "NORMAL" = none) :
    ∃ pc', assignNormalsStep ft bin ext pc = .ok pc' := by
  cases hcn : createNormals ft bin ext with
  | none =>
    exact ⟨pc, by simp [assignNormalsStep, getAttributeValues_isNone, h, hcn]⟩
  | some normals =>
    exact ⟨{ pc with attributes :=
        pc.attributes ++ [("NORMAL", ⟨"VEC3", "FLOAT32", .arrays normals⟩)] },
      by simp [assignNormalsStep, getAttributeValues_isNone, h, hcn,
        DefaultPointCloud.setNormals, addAttribute_ok_of_none h]⟩

theorem assignColorsStep_exists_ok (ft : PntsFeatureTable) (bin : ByteBuffer)
    (ext : Externals) {pc : DefaultPointCloud} (h : pc.getAttribute "COLOR_0" = none) :
    ∃ pc', assignColorsStep ft bin ext pc = .ok pc' := by
  cases hcc : createNormalizedLinearColors ft bin ext.gammaToLinear with
  | none =>
    exact ⟨pc, by simp [assignColorsStep, getAttributeValues_isNone, h, hcc]⟩
  | some colors =>
    exact ⟨{ pc with attributes :=
        pc.attributes ++ [("COLOR_0", ⟨"VEC4", "FLOAT32", .arrays colors⟩)] },
      by simp [assignColorsStep, getAttributeValues_isNone, h, hcc,
        DefaultPointCloud.setNormalizedLinearColors, addAttribute_ok_of_none h]⟩

theorem assignBatchIdsStep_error_of_bad {ft : PntsFeatureTable} {bin : ByteBuffer}
    {pc : DefaultPointCloud} {b : BatchIdDescriptor}
    (h : pc.getAttribute "_FEATURE_ID_0" = none)
    (hb : ft.BATCH_ID = some b) (hl : ft.BATCH_LENGTH = none) :
    assignBatchIdsStep ft bin pc =
      .error (.tileFormatError "Found BATCH_ID but no BATCH_LENGTH") := by
  simp [assignBatchIdsStep, getAttributeValues_isNone, h, createBatchIds, hb, hl]

theorem assignBatchIdsStep_exists_ok (ft : PntsFeatureTable) (bin : ByteBuffer)
    {pc : DefaultPointCloud} (h : pc.getAttribute "_FEATURE_ID_0" = none)
    (hgood : ft.BATCH_ID = none ∨ ft.BATCH_LENGTH.isSome) :
    ∃ pc', assignBatchIdsStep ft bin pc = .ok pc' := by
  cases hb : ft.BATCH_ID with
  | none =>
    exact ⟨pc, by simp [assignBatchIdsStep, getAttributeValues_isNone, h, createBatchIds, hb]⟩
  | some b =>
    cases hl : ft.BATCH_LENGTH with
    | none =>
      rcases hgood with hgood | hgood
      · rw [hb] at hgood
        cases hgood
      · rw [hl] at hgood
        cases hgood
    | some l =>
      refine ⟨{ pc with attributes := pc.attributes ++
        [("_FEATURE_ID_0",
          ⟨"SCALAR",
            TileTableData.convertLegacyComponentTypeToComponentType
              (b.componentType.getD .UNSIGNED_SHORT),
            .scalars (createBatchIdsInternal bin b.byteOffset
              (b.componentType.getD .UNSIGNED_SHORT) ft.POINTS_LENGTH)⟩)] }, ?_⟩
      simp [assignBatchIdsStep, getAttributeValues_isNone, h, createBatchIds, hb, hl,
        obtainBatchIdComponentType, addAttribute_ok_of_none h]

theorem rawPhases_error1 {ft : PntsFeatureTable} {bin : ByteBuffer} {ext : Externals}
    {pc : DefaultPointCloud} {e : DecodeError}
    (h1 : assignPositionsStep ft bin pc = .error e) :
    rawPhases ft bin ext pc = .error e := by
  simp [rawPhases, h1]

theorem rawPhases_eq {ft : PntsFeatureTable} {bin : ByteBuffer} {ext : Externals}
    {pc pca pcb pcc : DefaultPointCloud}
    (h1 : assignPositionsStep ft bin pc = .ok pca)
    (h2 : assignNormalsStep ft bin ext pca = .ok pcb)
    (h3 : assignColorsStep ft bin ext pcb = .ok pcc) :
    rawPhases ft bin ext pc = assignBatchIdsStep ft bin pcc := by
  simp [rawPhases, h1, h2, h3]

theorem create_none_eval {ft : PntsFeatureTable} {bin : ByteBuffer} {bt : BatchTable}
    {ext : Externals} {x : Except DecodeError DefaultPointCloud}
    (hraw : rawPhases ft bin ext emptyPointCloud = x) :
    create ft bin bt none ext =
      match x with
      | .error e => .error e
      | .ok pc5 => .ok (finishPhases ft bin ext pc5) := by
  cases x with
  | error e => simp [create, dracoPhase, createFromDracoPhase, hraw]
  | ok pc5 => simp [create, dracoPhase, createFromDracoPhase, hraw]

theorem assignPositionsStep_empty_ok {ft : PntsFeatureTable} {bin : ByteBuffer}
    {P : List (List ℚ)} (hcp : createPositions ft bin = .ok P) :
    assignPositionsStep ft bin emptyPointCloud =
      .ok ⟨[("POSITION", ⟨"VEC3", "FLOAT32", .arrays P⟩)], none, none⟩ := by
  simp [assignPositionsStep, getAttributeValues_isNone, hcp,
    DefaultPointCloud.setPositions, DefaultPointCloud.addAttribute, emptyPointCloud,
    DefaultPointCloud.getAttribute, lookupAttr]

theorem create_raw_cases (ft : PntsFeatureTable) (bin : ByteBuffer) (bt : BatchTable)
    (ext : Externals) :
    (∃ e, createPositions ft bin = .error e ∧ create ft bin bt none ext = .error e) ∨
    (∃ P, createPositions ft bin = .ok P ∧
      ((∃ b, ft.BATCH_ID = some b ∧ ft.BATCH_LENGTH = none ∧
          create ft bin bt none ext =
            .error (.tileFormatError "Found BATCH_ID but no BATCH_LENGTH")) ∨
        ((ft.BATCH_ID = none ∨ ft.BATCH_LENGTH.isSome) ∧
          ∃ pc, create ft bin bt none ext = .ok pc))) := by
  cases hcp : createPositions ft bin with
  | error e =>
    left
    refine ⟨e, rfl, ?_⟩
    have h1 : assignPositionsStep ft bin emptyPointCloud = .error e := by
      simp [assignPositionsStep, getAttributeValues_isNone, emptyPointCloud_getAttribute, hcp]
    rw [create_none_eval (rawPhases_error1 h1)]
  | ok P =>
    right
    refine ⟨P, rfl, ?_⟩
    have h1 := assignPositionsStep_empty_ok hcp
    have hn : (⟨[("POSITION", ⟨"VEC3", "FLOAT32", .arrays P⟩)], none, none⟩ :
        DefaultPointCloud).getAttribute "NORMAL" = none := by
      simp [DefaultPointCloud.getAttribute, lookupAttr]
    obtain ⟨pcb, h2⟩ := assignNormalsStep_exists_ok ft bin ext hn
    have hc : pcb.getAttribute "COLOR_0" = none := by
      rw [assignNormalsStep_untouched (by decide) h2]
      simp [DefaultPointCloud.getAttribute, lookupAttr]
    obtain ⟨pcc, h3⟩ := assignColorsStep_exists_ok ft bin ext hc
    have hf : pcc.getAttribute "_FEATURE_ID_0" = none := by
      rw [assignColorsStep_untouched (by decide) h3,
        assignNormalsStep_untouched (by decide) h2]
      simp [DefaultPointCloud.getAttribute, lookupAttr]
    cases hb : ft.BATCH_ID with
    | none =>
      right
      refine ⟨Or.inl rfl, ?_⟩
      obtain ⟨pcd, h4⟩ := assignBatchIdsStep_exists_ok ft bin hf (Or.inl hb)
      exact ⟨finishPhases ft bin ext pcd,
        by rw [create_none_eval ((rawPhases_eq h1 h2 h3).trans h4)]⟩
    | some b =>
      cases hl : ft.BATCH_LENGTH with
      | none =>
        left
        exact ⟨b, rfl, rfl,
          by rw [create_none_eval ((rawPhases_eq h1 h2 h3).trans
            (assignBatchIdsStep_error_of_bad hf hb hl))]⟩
      | some l =>
        right
        refine ⟨Or.inr (by simp [hl]), ?_⟩
        obtain ⟨pcd, h4⟩ := assignBatchIdsStep_exists_ok ft bin hf (Or.inr (by simp [hl]))
        exact ⟨finishPhases ft bin ext pcd,
          by rw [create_none_eval ((rawPhases_eq h1 h2 h3).trans h4)]⟩

theorem createPositions_error_conditions {ft : PntsFeatureTable} {bin : ByteBuffer}
    {e : DecodeError} (h : createPositions ft bin = .error e) :
    (∃ msg, e = .tileFormatError msg) ∧
      ((ft.POSITION = none ∧ ft.POSITION_QUANTIZED = none) ∨
        (ft.POSITION = none ∧ ft.POSITION_QUANTIZED.isSome ∧
          (ft.QUANTIZED_VOLUME_OFFSET = none ∨ ft.QUANTIZED_VOLUME_SCALE = none))) := by
  cases hpos : ft.POSITION with
  | some d =>
    simp [createPositions, hpos] at h
  | none =>
    cases hpq : ft.POSITION_QUANTIZED with
    | none =>
      simp only [createPositions, hpos, hpq] at h
      cases h
      exact ⟨⟨_, rfl⟩, Or.inl ⟨rfl, rfl⟩⟩
    | some dq =>
      cases ho : ft.QUANTIZED_VOLUME_OFFSET with
      | none =>
        simp only [createPositions, hpos, hpq, obtainQuantizationOffsetScale, ho] at h
        cases h
        exact ⟨⟨_, rfl⟩, Or.inr ⟨rfl, by simp, Or.inl rfl⟩⟩
      | some o =>
        cases hs : ft.QUANTIZED_VOLUME_SCALE with
        | none =>
          simp only [createPositions, hpos, hpq, obtainQuantizationOffsetScale, ho, hs] at h
          cases h
          exact ⟨⟨_, rfl⟩, Or.inr ⟨rfl, by simp, Or.inr rfl⟩⟩
        | some s =>
          simp [createPositions, hpos, hpq, obtainQuantizationOffsetScale, ho, hs] at h

theorem createPositions_ok_of_conditions {ft : PntsFeatureTable} {bin : ByteBuffer}
    (hc : ¬((ft.POSITION = none ∧ ft.POSITION_QUANTIZED = none) ∨
      (ft.POSITION = none ∧ ft.POSITION_QUANTIZED.isSome ∧
        (ft.QUANTIZED_VOLUME_OFFSET = none ∨ ft.QUANTIZED_VOLUME_SCALE = none)))) :
    ∃ P, createPositions ft bin = .ok P := by
  cases hcp : createPositions ft bin with
  | ok P => exact ⟨P, rfl⟩
  | error e => exact absurd (createPositions_error_conditions hcp).2 hc

end PntsPointClouds

namespace PntsPointClouds

theorem createPositions_error_of_conditions {ft : PntsFeatureTable} {bin : ByteBuffer}
    (h : (ft.POSITION = none ∧ ft.POSITION_QUANTIZED = none) ∨
      (ft.POSITION = none ∧ ft.POSITION_QUANTIZED.isSome ∧
        (ft.QUANTIZED_VOLUME_OFFSET = none ∨ ft.QUANTIZED_VOLUME_SCALE = none))) :
    ∃ e, createPositions ft bin = .error e := by
  cases hcp : createPositions ft bin with
  | error e => exact ⟨e, rfl⟩
  | ok P =>
    exfalso
    rcases h with ⟨h1, h2⟩ | ⟨h1, h2, h3⟩
    · simp [createPositions, h1, h2] at hcp
    · obtain ⟨dq, hdq⟩ := Option.isSome_iff_exists.mp h2
      rcases h3 with h3 | h3
      · simp [createPositions, h1, hdq, obtainQuantizationOffsetScale, h3] at hcp
      · cases ho : ft.QUANTIZED_VOLUME_OFFSET with
        | none => simp [createPositions, h1, hdq, obtainQuantizationOffsetScale, ho] at hcp
        | some o => simp [createPositions, h1, hdq, obtainQuantizationOffsetScale, ho, h3] at hcp

/-- C2, counterexample to the claim as stated: a feature table holding both
POSITION and POSITION_QUANTIZED without QUANTIZED_VOLUME_OFFSET satisfies
the claim's first error condition ("has POSITION_QUANTIZED but lacks
QUANTIZED_VOLUME_OFFSET or QUANTIZED_VOLUME_SCALE"), yet the decode
succeeds: the companion check only runs when POSITION is absent. -/
theorem c2_counterexample :
    wFtBoth.POSITION_QUANTIZED.isSome = true ∧
    wFtBoth.QUANTIZED_VOLUME_OFFSET = none ∧
    (create wFtBoth [] wBt none wExt).toOption.isSome = true :=
  ⟨rfl, rfl, rfl⟩

/-- C2, amended: for decode calls with no mesh-compression result whose
quantization volume offset/scale reads stay within the buffer (the only
binary-body reads performed eagerly before the last format-error site, so
no range error can preempt — see `quantizationReadsInBounds`), a format
error is raised exactly when POSITION is absent and POSITION_QUANTIZED is
also absent; or POSITION is absent and POSITION_QUANTIZED is present but
QUANTIZED_VOLUME_OFFSET or QUANTIZED_VOLUME_SCALE is missing; or BATCH_ID
is present without BATCH_LENGTH. By the `Except` result type, no sink is
produced when an error is raised. -/
theorem c2_format_error_characterization (ft : PntsFeatureTable) (bin : ByteBuffer)
    (bt : BatchTable) (ext : Externals) (_hin : quantizationReadsInBounds ft bin) :
    (∃ msg, create ft bin bt none ext = .error (.tileFormatError msg)) ↔
      ((ft.POSITION = none ∧ ft.POSITION_QUANTIZED = none) ∨
       (ft.POSITION = none ∧ ft.POSITION_QUANTIZED.isSome ∧
         (ft.QUANTIZED_VOLUME_OFFSET = none ∨ ft.QUANTIZED_VOLUME_SCALE = none)) ∨
       (ft.BATCH_ID.isSome ∧ ft.BATCH_LENGTH = none)) := by
  rcases create_raw_cases ft bin bt ext with ⟨e, hcp, hcr⟩ | ⟨P, hcp, hrest⟩
  · obtain ⟨⟨msg, hmsg⟩, hconds⟩ := createPositions_error_conditions hcp
    constructor
    · intro _
      rcases hconds with h | h
      · exact Or.inl h
      · exact Or.inr (Or.inl h)
    · intro _
      exact ⟨msg, by rw [hcr, hmsg]⟩
  · rcases hrest with ⟨b, hb, hl, herr⟩ | ⟨hgood, pc, hok⟩
    · constructor
      · intro _
        exact Or.inr (Or.inr ⟨by simp [hb], hl⟩)
      · intro _
        exact ⟨"Found BATCH_ID but no BATCH_LENGTH", herr⟩
    · constructor
      · intro ⟨msg, hmsg⟩
        rw [hok] at hmsg
        cases hmsg
      · intro hcond
        exfalso
        rcases hcond with h | h | h
        · obtain ⟨e, he⟩ := createPositions_error_of_conditions (Or.inl h)
          rw [hcp] at he
          cases he
        · obtain ⟨e, he⟩ := createPositions_error_of_conditions (Or.inr h)
          rw [hcp] at he
          cases he
        · obtain ⟨hbs, hbl⟩ := h
          rcases hgood with hg | hg
          · rw [hg] at hbs
            cases hbs
          · rw [hbl] at hg
            cases hg

/-- Witness for the amended C2: a table with BATCH_ID but no BATCH_LENGTH
(its eager reads trivially in bounds: POSITION is present) raises a format
error. -/
theorem c2_format_error_witness :
    quantizationReadsInBounds wFtBadBatch [] ∧
    (∃ msg, create wFtBadBatch [] wBt none wExt = .error (.tileFormatError msg)) ∧
    wFtBadBatch.BATCH_ID.isSome = true ∧ wFtBadBatch.BATCH_LENGTH = none := by
  have hin : quantizationReadsInBounds wFtBadBatch [] := fun hpos => nomatch hpos
  exact ⟨hin, (c2_format_error_characterization wFtBadBatch [] wBt wExt hin).mpr
    (Or.inr (Or.inr ⟨rfl, rfl⟩)), rfl, rfl⟩

end PntsPointClouds

namespace PntsPointClouds

/-- C3: when the mesh-compression result contains POSITION, the sink's
positions are exactly the Draco-decoded positions, and the raw POSITION and
POSITION_QUANTIZED fields of the feature table are never consulted: the
whole decode result is unchanged under any modification of those two
fields. -/
theorem c3_draco_position_override (ft : PntsFeatureTable) (bin : ByteBuffer)
    (bt : BatchTable) (r : DracoDecoderResult) (ext : Externals) (dp : DracoAttribute)
    (hfind : r.find "POSITION" = some dp) :
    (∀ pc, create ft bin bt (some r) ext = .ok pc →
      pc.getAttribute "POSITION" =
        some ⟨"VEC3", "FLOAT32",
          .arrays (createPositionsInternal dp.attributeData dp.attributeInfo.byteOffset
            ft.POINTS_LENGTH)⟩) ∧
    (∀ p q, create { ft with POSITION := p, POSITION_QUANTIZED := q } bin bt (some r) ext =
      create ft bin bt (some r) ext) := by
  constructor
  · intro pc hok
    obtain ⟨pc1, pc5, hdp, hraw, hpc⟩ := create_decompose hok
    have hassign : assignDracoDecodedAttributes emptyPointCloud ft.POINTS_LENGTH r bt ext =
        .ok pc1 := by
      simpa [dracoPhase] using hdp
    have hfilled := assignDraco_position_filled hfind hassign
    rw [hpc, finishPhases_getAttribute]
    exact rawPhases_mono hraw hfilled
  · intro p q
    have hdpfun : dracoPhase { ft with POSITION := p, POSITION_QUANTIZED := q } bt
        (some r) ext = dracoPhase ft bt (some r) ext := rfl
    simp only [create, hdpfun]
    cases hdp : dracoPhase ft bt (some r) ext with
    | error e => rfl
    | ok pc1 =>
      have hassign : assignDracoDecodedAttributes emptyPointCloud ft.POINTS_LENGTH r bt ext =
          .ok pc1 := by
        simpa [dracoPhase] using hdp
      have hfilled := assignDraco_position_filled hfind hassign
      have hN : assignNormalsStep { ft with POSITION := p, POSITION_QUANTIZED := q } bin ext =
          assignNormalsStep ft bin ext := rfl
      have hC : assignColorsStep { ft with POSITION := p, POSITION_QUANTIZED := q } bin ext =
          assignColorsStep ft bin ext := rfl
      have hB : assignBatchIdsStep { ft with POSITION := p, POSITION_QUANTIZED := q } bin =
          assignBatchIdsStep ft bin := rfl
      have hF : finishPhases { ft with POSITION := p, POSITION_QUANTIZED := q } bin ext =
          finishPhases ft bin ext := rfl
      simp only [createFromDracoPhase, rawPhases, assignPositionsStep_skip hfilled,
        hN, hC, hB, hF]

/-- Witness for C3: with a Draco result providing (an empty) POSITION and a
zero-point table, the sink positions come from the Draco data, and editing
the raw POSITION/POSITION_QUANTIZED fields leaves the decode unchanged. -/
theorem c3_draco_position_override_witness :
    DracoDecoderResult.find wDracoPos "POSITION" = some ⟨[], ⟨0, .FLOAT⟩⟩ ∧
    create wFt0 [] wBt (some wDracoPos) wExt = .ok wPcDraco ∧
    wPcDraco.getAttribute "POSITION" = some ⟨"VEC3", "FLOAT32", .arrays []⟩ ∧
    create { wFt0 with POSITION := some ⟨5⟩, POSITION_QUANTIZED := some ⟨7⟩ } [] wBt
      (some wDracoPos) wExt = create wFt0 [] wBt (some wDracoPos) wExt := by
  refine ⟨rfl, rfl, ?_, ?_⟩
  · have h := (c3_draco_position_override wFt0 [] wBt wDracoPos wExt ⟨[], ⟨0, .FLOAT⟩⟩
      rfl).1 wPcDraco rfl
    rw [h]
    simp [createPositionsInternal, TileTableData.createNumericArrayIterable, wFt0]
  · exact (c3_draco_position_override wFt0 [] wBt wDracoPos wExt ⟨[], ⟨0, .FLOAT⟩⟩ rfl).2
      (some ⟨5⟩) (some ⟨7⟩)

end PntsPointClouds

namespace PntsPointClouds

/-- C4: attributes are stored monotonically — every binding present in the
sink is still present, unchanged, after any later step of the same decode
call. Both the compression phase (`assignDracoDecodedAttributes`, whose
store fails rather than overwrites when a name repeats, e.g. COLOR_0 from
both RGB and RGBA) and all subsequent raw phases preserve existing
bindings. -/
theorem c4_attributes_monotone (ft : PntsFeatureTable) (bin : ByteBuffer)
    (bt : BatchTable) (ext : Externals) (n : Nat) (r : DracoDecoderResult) :
    PreservesAttrs (fun pc => assignDracoDecodedAttributes pc n r bt ext) ∧
    PreservesAttrs (createFromDracoPhase ft bin ext) := by
  constructor
  · intro pc pc' name a h hsome
    exact assignDraco_mono h hsome
  · intro pc pc' name a h hsome
    cases hr : rawPhases ft bin ext pc with
    | error e =>
      simp only [createFromDracoPhase, hr] at h
      exact absurd h (by simp)
    | ok pc5 =>
      simp only [createFromDracoPhase, hr] at h
      cases h
      have h5 := rawPhases_mono hr hsome
      rw [finishPhases_attributes]
      exact h5

/-- Witness for C4: the POSITION binding written by the compression phase
is still present, unchanged, in the final sink. -/
theorem c4_attributes_monotone_witness :
    assignDracoDecodedAttributes emptyPointCloud 0 wDracoPos wBt wExt = .ok wPcDraco1 ∧
    lookupAttr wPcDraco1.attributes "POSITION" =
      some ⟨"VEC3", "FLOAT32", .arrays []⟩ ∧
    createFromDracoPhase wFt0 [] wExt wPcDraco1 = .ok wPcDraco ∧
    lookupAttr wPcDraco.attributes "POSITION" =
      some ⟨"VEC3", "FLOAT32", .arrays []⟩ := by
  have h1 : lookupAttr wPcDraco1.attributes "POSITION" =
      some ⟨"VEC3", "FLOAT32", .arrays []⟩ := rfl
  have h2 : createFromDracoPhase wFt0 [] wExt wPcDraco1 = .ok wPcDraco := rfl
  exact ⟨rfl, h1, h2,
    (c4_attributes_monotone wFt0 [] wBt wExt 0 wDracoPos).2 wPcDraco1 wPcDraco
      "POSITION" _ h2 h1⟩

end PntsPointClouds

namespace PntsPointClouds

/-- C5: when the compression result did not provide COLOR_0 (no RGB, RGBA
or COLOR_0 entry), the per-point color source is chosen RGBA over RGB over
RGB565: the first present is decoded and converted to normalized-linear
RGBA, later ones are ignored; the modelled conversions give alpha 1.0 for
the 3-component sources. -/
theorem c5_color_precedence (ft : PntsFeatureTable) (bin : ByteBuffer) (bt : BatchTable)
    (draco : Option DracoDecoderResult) (ext : Externals) (pc : DefaultPointCloud)
    (hrgb : dracoResultProvides draco "RGB" = false)
    (hrgba : dracoResultProvides draco "RGBA" = false)
    (hcol : dracoResultProvides draco "COLOR_0" = false)
    (hok : create ft bin bt draco ext = .ok pc) :
    (∀ d, ft.RGBA = some d →
      pc.getAttribute "COLOR_0" =
        some ⟨"VEC4", "FLOAT32",
          .arrays ((createColorsStandardRGBAInternal bin d.byteOffset ft.POINTS_LENGTH).map
            (Colors.standardRGBAToNormalizedLinearRGBA ext.gammaToLinear))⟩) ∧
    (∀ d, ft.RGBA = none → ft.RGB = some d →
      pc.getAttribute "COLOR_0" =
        some ⟨"VEC4", "FLOAT32",
          .arrays ((createColorsStandardRGBInternal bin d.byteOffset ft.POINTS_LENGTH).map
            (Colors.standardRGBToNormalizedLinearRGBA ext.gammaToLinear))⟩) ∧
    (∀ d, ft.RGBA = none → ft.RGB = none → ft.RGB565 = some d →
      pc.getAttribute "COLOR_0" =
        some ⟨"VEC4", "FLOAT32",
          .arrays ((createColorsStandardRGB656Internal bin d.byteOffset ft.POINTS_LENGTH).map
            (Colors.standardRGB565ToNormalizedLinearRGBA ext.gammaToLinear))⟩) ∧
    (∀ c, (Colors.standardRGBToNormalizedLinearRGBA ext.gammaToLinear c).getD 3 0 = 1) ∧
    (∀ w, (Colors.standardRGB565ToNormalizedLinearRGBA ext.gammaToLinear w).getD 3 0 = 1) := by
  obtain ⟨pc1, pc5, hdp, hraw, hpc⟩ := create_decompose hok
  have hc1 : pc1.getAttribute "COLOR_0" = none :=
    dracoPhase_untouched hcol (fun _ => ⟨hrgb, hrgba⟩)
      (fun he => absurd he (by decide)) hdp
  obtain ⟨pca, pcb, pcc, h1, h2, h3, h4⟩ := rawPhases_decompose hraw
  have hcb : pcb.getAttribute "COLOR_0" = none := by
    rw [assignNormalsStep_untouched (by decide) h2,
      assignPositionsStep_untouched (by decide) h1]
    exact hc1
  rw [assignColorsStep_fill hcb] at h3
  have final : ∀ V, createNormalizedLinearColors ft bin ext.gammaToLinear = some V →
      pc.getAttribute "COLOR_0" = some ⟨"VEC4", "FLOAT32", .arrays V⟩ := by
    intro V hcc
    rw [hcc] at h3
    simp only [DefaultPointCloud.setNormalizedLinearColors] at h3
    have hfilled : pcc.getAttribute "COLOR_0" = some ⟨"VEC4", "FLOAT32", .arrays V⟩ := by
      rw [addAttribute_ok_lookup h3]
      simp
    rw [hpc, finishPhases_getAttribute]
    exact assignBatchIdsStep_mono h4 hfilled
  refine ⟨?_, ?_, ?_, ?_, ?_⟩
  · intro d hd
    exact final _ (by simp [createNormalizedLinearColors, hd])
  · intro d hda hd
    exact final _ (by simp [createNormalizedLinearColors, hda, hd])
  · intro d hda hdb hd
    exact final _ (by simp [createNormalizedLinearColors, hda, hdb, hd])
  · intro c
    simp [Colors.standardRGBToNormalizedLinearRGBA]
  · intro w
    simp [Colors.standardRGB565ToNormalizedLinearRGBA]

/-- Witness for C5: a table with one point and RGBA bytes (255, 0, 255, 255)
stores COLOR_0 = (1, 0, 1, 1) under the identity transfer. -/
theorem c5_color_precedence_witness :
    create wFtRGBA wBinRGBA wBt none wExt = .ok wPcRGBA ∧
    wPcRGBA.getAttribute "COLOR_0" =
      some ⟨"VEC4", "FLOAT32", .arrays [[1, 0, 1, 1]]⟩ := by
  refine ⟨rfl, ?_⟩
  have h := (c5_color_precedence wFtRGBA wBinRGBA wBt none wExt wPcRGBA rfl rfl rfl rfl).1
    ⟨12⟩ rfl
  rw [h]
  simp [createColorsStandardRGBAInternal, TileTableData.createNumericArrayIterable,
    LegacyType.componentCount, LegacyComponentType.byteSize, LegacyComponentType.decode,
    readBytesLE, wBinRGBA, wFtRGBA, wExt, List.range_succ,
    Colors.standardRGBAToNormalizedLinearRGBA, List.getD]

end PntsPointClouds

namespace PntsPointClouds

theorem obtainQuantizationOffsetScale_none {ft : PntsFeatureTable} {bin : ByteBuffer}
    (hq : ft.QUANTIZED_VOLUME_OFFSET = none ∨ ft.QUANTIZED_VOLUME_SCALE = none) :
    obtainQuantizationOffsetScale ft bin = none := by
  rcases hq with h | h
  · simp [obtainQuantizationOffsetScale, h]
  · cases ho : ft.QUANTIZED_VOLUME_OFFSET <;>
      simp [obtainQuantizationOffsetScale, ho, h]

theorem create_ok_globalPosition {ft : PntsFeatureTable} {bin : ByteBuffer}
    {bt : BatchTable} {draco : Option DracoDecoderResult} {ext : Externals}
    {pc : DefaultPointCloud} (hok : create ft bin bt draco ext = .ok pc) :
    pc.globalPosition = obtainGlobalPosition ft bin := by
  obtain ⟨pc1, pc5, hdp, hraw, hpc⟩ := create_decompose hok
  rw [hpc, finishPhases_globalPosition]

/-- C6: the sink's global position is `none` without RTC_CENTER and without
a full quantization offset/scale pair; RTC_CENTER `[x, y, z]` contributes
`[x, z, -y]`; a present offset/scale pair contributes the volume offset
`[ox, oy, oz]` as `[ox, oz, -oy]`, on top of `[0, 0, 0]` when RTC_CENTER is
absent. -/
theorem c6_global_position (ft : PntsFeatureTable) (bin : ByteBuffer) (bt : BatchTable)
    (draco : Option DracoDecoderResult) (ext : Externals) (pc : DefaultPointCloud)
    (hok : create ft bin bt draco ext = .ok pc) :
    (ft.RTC_CENTER = none →
      (ft.QUANTIZED_VOLUME_OFFSET = none ∨ ft.QUANTIZED_VOLUME_SCALE = none) →
      pc.globalPosition = none) ∧
    (∀ rc, ft.RTC_CENTER = some rc →
      (ft.QUANTIZED_VOLUME_OFFSET = none ∨ ft.QUANTIZED_VOLUME_SCALE = none) →
      pc.globalPosition = some
        [(TileTableData.obtainRtcCenter rc bin).getD 0 0,
         (TileTableData.obtainRtcCenter rc bin).getD 2 0,
         -((TileTableData.obtainRtcCenter rc bin).getD 1 0)]) ∧
    (∀ o s, ft.RTC_CENTER = none → ft.QUANTIZED_VOLUME_OFFSET = some o →
      ft.QUANTIZED_VOLUME_SCALE = some s →
      pc.globalPosition = some
        [(TileTableData.obtainNumberArray bin o 3 .FLOAT).getD 0 0,
         (TileTableData.obtainNumberArray bin o 3 .FLOAT).getD 2 0,
         -((TileTableData.obtainNumberArray bin o 3 .FLOAT).getD 1 0)]) ∧
    (∀ rc o s, ft.RTC_CENTER = some rc → ft.QUANTIZED_VOLUME_OFFSET = some o →
      ft.QUANTIZED_VOLUME_SCALE = some s →
      pc.globalPosition = some
        [(TileTableData.obtainRtcCenter rc bin).getD 0 0 +
           (TileTableData.obtainNumberArray bin o 3 .FLOAT).getD 0 0,
         (TileTableData.obtainRtcCenter rc bin).getD 2 0 +
           (TileTableData.obtainNumberArray bin o 3 .FLOAT).getD 2 0,
         -((TileTableData.obtainRtcCenter rc bin).getD 1 0) +
           -((TileTableData.obtainNumberArray bin o 3 .FLOAT).getD 1 0)]) := by
  have hgp := create_ok_globalPosition hok
  refine ⟨?_, ?_, ?_, ?_⟩
  · intro hrc hq
    rw [hgp]
    simp [obtainGlobalPosition, hrc, obtainQuantizationOffsetScale_none hq]
  · intro rc hrc hq
    rw [hgp]
    simp [obtainGlobalPosition, hrc, obtainQuantizationOffsetScale_none hq]
  · intro o s hrc ho hs
    rw [hgp]
    simp [obtainGlobalPosition, hrc, obtainQuantizationOffsetScale, ho, hs, List.getD]
  · intro rc o s hrc ho hs
    rw [hgp]
    simp [obtainGlobalPosition, hrc, obtainQuantizationOffsetScale, ho, hs, List.getD]

/-- Witness for C6: RTC_CENTER = [1, 2, 3] with no quantization yields the
global position [1, 3, -2]. -/
theorem c6_global_position_witness :
    create wFtRtc [] wBt none wExt = .ok wPcRtc ∧
    wPcRtc.globalPosition = some [1, 3, -2] := by
  refine ⟨rfl, ?_⟩
  have h := (c6_global_position wFtRtc [] wBt none wExt wPcRtc rfl).2.1
    (.inline [1, 2, 3]) rfl (Or.inl rfl)
  rw [h]
  simp [TileTableData.obtainRtcCenter, TileTableData.obtainNumberArray, List.getD]

end PntsPointClouds

namespace PntsPointClouds

/-- C7: when the COLOR_0 slot is still empty after the per-point color step,
a present CONSTANT_RGBA (4 unsigned bytes) is converted to normalized-linear
and assigned only to the global color slot, while the per-point COLOR_0
attribute remains absent; when a per-point color was stored, step 6 is
skipped and the global color slot is left exactly as it was (CONSTANT_RGBA
is not consulted). -/
theorem c7_constant_rgba_global_only (ft : PntsFeatureTable) (bin : ByteBuffer)
    (bt : BatchTable) (draco : Option DracoDecoderResult) (ext : Externals)
    (pc1 pc5 : DefaultPointCloud)
    (hdp : dracoPhase ft bt draco ext = .ok pc1)
    (hraw : rawPhases ft bin ext pc1 = .ok pc5) :
    create ft bin bt draco ext = .ok (finishPhases ft bin ext pc5) ∧
    (pc5.getAttribute "COLOR_0" = none →
      (finishPhases ft bin ext pc5).getAttributeValues "COLOR_0" = none ∧
      ∀ p, ft.CONSTANT_RGBA = some p →
        (finishPhases ft bin ext pc5).globalColor =
          some (Colors.standardRGBAToNormalizedLinearRGBA ext.gammaToLinear
            (TileTableData.obtainNumberArray bin p 4 .UNSIGNED_BYTE))) ∧
    (∀ v, pc5.getAttribute "COLOR_0" = some v →
      (finishPhases ft bin ext pc5).globalColor = pc5.globalColor) := by
  refine ⟨by simp [create, hdp, createFromDracoPhase, hraw], ?_, ?_⟩
  · intro hc
    constructor
    · simp [DefaultPointCloud.getAttributeValues, finishPhases_getAttribute, hc]
    · intro p hp
      rw [finishPhases_globalColor]
      simp [DefaultPointCloud.getAttributeValues, DefaultPointCloud.getAttribute.eq_def,
        hc, createGlobalNormalizedLinearColor, hp]
      simp [DefaultPointCloud.getAttribute] at hc
      simp [hc]
  · intro v hv
    rw [finishPhases_globalColor]
    simp [DefaultPointCloud.getAttributeValues, hv]

/-- Witness for C7: CONSTANT_RGBA = (255, 255, 0, 255) with no per-point
color yields global color (1, 1, 0, 1) and no COLOR_0 attribute. -/
theorem c7_constant_rgba_global_only_witness :
    rawPhases wFtConst [] wExt emptyPointCloud = .ok wPc5Const ∧
    wPc5Const.getAttribute "COLOR_0" = none ∧
    (finishPhases wFtConst [] wExt wPc5Const).globalColor = some [1, 1, 0, 1] ∧
    (finishPhases wFtConst [] wExt wPc5Const).getAttributeValues "COLOR_0" = none := by
  have hdp : dracoPhase wFtConst wBt none wExt = .ok emptyPointCloud := rfl
  have hraw : rawPhases wFtConst [] wExt emptyPointCloud = .ok wPc5Const := rfl
  have hc : wPc5Const.getAttribute "COLOR_0" = none := rfl
  have hpair := (c7_constant_rgba_global_only wFtConst [] wBt none wExt
    emptyPointCloud wPc5Const hdp hraw).2.1 hc
  have hglob := hpair.2 (.inline [255, 255, 0, 255]) rfl
  refine ⟨hraw, hc, ?_, hpair.1⟩
  rw [hglob]
  simp [Colors.standardRGBAToNormalizedLinearRGBA, TileTableData.obtainNumberArray,
    wExt, List.getD]

end PntsPointClouds

namespace PntsPointClouds

/-- C9: when `_FEATURE_ID_0` is not provided by the compression result and
the raw BATCH_ID descriptor declares no component datatype (with
BATCH_LENGTH present), the batch IDs are decoded as unsigned 16-bit
integers and stored as a generic scalar attribute with component type
"UINT16". -/
theorem c9_batch_id_default_u16 (ft : PntsFeatureTable) (bin : ByteBuffer)
    (bt : BatchTable) (draco : Option DracoDecoderResult) (ext : Externals)
    (pc : DefaultPointCloud) (off l : Nat)
    (hbid : dracoResultProvides draco "BATCH_ID" = false)
    (hfid : dracoResultProvides draco "_FEATURE_ID_0" = false)
    (hb : ft.BATCH_ID = some ⟨off, none⟩) (hl : ft.BATCH_LENGTH = some l)
    (hok : create ft bin bt draco ext = .ok pc) :
    pc.getAttribute "_FEATURE_ID_0" =
      some ⟨"SCALAR", "UINT16",
        .scalars (createBatchIdsInternal bin off .UNSIGNED_SHORT ft.POINTS_LENGTH)⟩ := by
  obtain ⟨pc1, pc5, hdp, hraw, hpc⟩ := create_decompose hok
  have hf1 : pc1.getAttribute "_FEATURE_ID_0" = none :=
    dracoPhase_untouched hfid (fun he => absurd he (by decide)) (fun _ => hbid) hdp
  obtain ⟨pca, pcb, pcc, h1, h2, h3, h4⟩ := rawPhases_decompose hraw
  have hf : pcc.getAttribute "_FEATURE_ID_0" = none := by
    rw [assignColorsStep_untouched (by decide) h3,
      assignNormalsStep_untouched (by decide) h2,
      assignPositionsStep_untouched (by decide) h1]
    exact hf1
  have hstep : assignBatchIdsStep ft bin pcc =
      pcc.addAttribute "_FEATURE_ID_0" "SCALAR" "UINT16"
        (.scalars (createBatchIdsInternal bin off .UNSIGNED_SHORT ft.POINTS_LENGTH)) := by
    simp [assignBatchIdsStep, getAttributeValues_isNone, hf, createBatchIds, hb, hl,
      obtainBatchIdComponentType, TileTableData.convertLegacyComponentTypeToComponentType]
  rw [hstep] at h4
  have hfilled : pc5.getAttribute "_FEATURE_ID_0" =
      some ⟨"SCALAR", "UINT16",
        .scalars (createBatchIdsInternal bin off .UNSIGNED_SHORT ft.POINTS_LENGTH)⟩ := by
    rw [addAttribute_ok_lookup h4]
    simp
  rw [hpc, finishPhases_getAttribute]
  exact hfilled

/-- Witness for C9: one point whose BATCH_ID field (no declared component
type) holds the u16 LE bytes (7, 0) stores `_FEATURE_ID_0` = [7] with
component type "UINT16". -/
theorem c9_batch_id_default_u16_witness :
    create wFtBatch wBinBatch wBt none wExt = .ok wPcBatch ∧
    wPcBatch.getAttribute "_FEATURE_ID_0" =
      some ⟨"SCALAR", "UINT16", .scalars [7]⟩ := by
  refine ⟨rfl, ?_⟩
  have h := c9_batch_id_default_u16 wFtBatch wBinBatch wBt none wExt wPcBatch 12 2
    rfl rfl rfl rfl rfl
  rw [h]
  simp [createBatchIdsInternal, TileTableData.createNumericScalarIterable,
    LegacyType.componentCount, LegacyComponentType.byteSize, LegacyComponentType.decode,
    readBytesLE, wBinBatch, wFtBatch, List.range_succ, List.getD]

end PntsPointClouds

namespace PntsPointClouds

/-- C8, counterexample to the claim as stated: the result property
"intensity" (not one of the five canonical names) is not added to the sink
when the batch table does not list it in its mesh-compression extension —
the decode succeeds and `getAttribute "intensity"` is absent. -/
theorem c8_counterexample :
    (DracoDecoderResult.find wDracoIntensity "intensity").isSome = true ∧
    (create wFtPos0 [] wBt (some wDracoIntensity) wExt).toOption.isSome = true ∧
    ((create wFtPos0 [] wBt (some wDracoIntensity) wExt).toOption.getD
      emptyPointCloud).getAttribute "intensity" = none :=
  ⟨rfl, rfl, rfl⟩

/-- C8, amended: for every property name listed in the side (batch) table's
mesh-compression extension, present in the Draco result, and whose
batch-table entry is a binary-body reference, the decoded values are added
to the sink as a generic attribute named after the property, with element
type translated from the side table's declared legacy type and component
type translated from the result's declared component datatype. -/
theorem c8_generic_attributes (ft : PntsFeatureTable) (bin : ByteBuffer)
    (bt : BatchTable) (r : DracoDecoderResult) (ext : Externals)
    (pc : DefaultPointCloud) (name : String) (dp : DracoAttribute)
    (ref : BatchTableBinaryBodyReference)
    (hmem : name ∈ BatchTables.obtainDracoPropertyNames bt)
    (hfind : r.find name = some dp)
    (href : bt.findProperty name = some (.reference ref))
    (hok : create ft bin bt (some r) ext = .ok pc) :
    pc.getAttribute name =
      some ⟨TileTableData.convertLegacyTypeToType ref.type,
        TileTableData.convertLegacyComponentTypeToComponentType
          dp.attributeInfo.componentDatatype,
        .scalars (TileTableData.createNumericScalarIterable ref.type
          dp.attributeInfo.componentDatatype dp.attributeData
          dp.attributeInfo.byteOffset ft.POINTS_LENGTH)⟩ := by
  obtain ⟨pc1, pc5, hdp, hraw, hpc⟩ := create_decompose hok
  have hassign : assignDracoDecodedAttributes emptyPointCloud ft.POINTS_LENGTH r bt ext =
      .ok pc1 := by
    simpa [dracoPhase] using hdp
  obtain ⟨pca, pcb, pcc, pcd, g1, g2, g3, g4, g5⟩ := assignDraco_decompose hassign
  have hadded := assignDracoGenericAttributes_added hfind href hmem g5
  rw [hpc, finishPhases_getAttribute]
  exact rawPhases_mono hraw hadded

/-- Witness for the amended C8: the batch-table property "intensity"
(scalar, unsigned byte, draco-compressed) with decoded byte 42 is stored as
the generic attribute "intensity" = [42] with component type "UINT8". -/
theorem c8_generic_attributes_witness :
    create wFtPos1 wBin12 wBt8 (some wDraco8) wExt = .ok wPc8 ∧
    wPc8.getAttribute "intensity" = some ⟨"SCALAR", "UINT8", .scalars [42]⟩ := by
  refine ⟨rfl, ?_⟩
  have h := c8_generic_attributes wFtPos1 wBin12 wBt8 wDraco8 wExt wPc8 "intensity"
    ⟨[42], ⟨0, .UNSIGNED_BYTE⟩⟩ ⟨0, .UNSIGNED_BYTE, .SCALAR⟩
    (by simp [BatchTables.obtainDracoPropertyNames, wBt8])
    rfl rfl rfl
  rw [h]
  simp [TileTableData.createNumericScalarIterable, TileTableData.convertLegacyTypeToType,
    TileTableData.convertLegacyComponentTypeToComponentType, LegacyType.componentCount,
    LegacyComponentType.byteSize, LegacyComponentType.decode, readBytesLE, wFtPos1,
    List.range_succ, List.getD]

end PntsPointClouds

/-- C10: the filesystem tileset source is a strict open/use/close state
machine — opening an already-opened source throws a tileset error; getKeys,
getValue and close throw a tileset error when the source is not opened;
getValue on an opened source returns absent (not an error) for a key whose
file does not exist; and after close the source can be opened again. -/
theorem c10_source_state_machine :
    (∀ n n', (TilesetSourceFs.mk (some n)).openSource n' =
      .error (.tilesetError "Source already opened")) ∧
    (∀ listKeys, TilesetSourceFs.getKeys listKeys ⟨none⟩ =
      .error (.tilesetError "Source is not opened. Call open first.")) ∧
    (∀ fs key, TilesetSourceFs.getValue fs ⟨none⟩ key =
      .error (.tilesetError "Source is not opened. Call open first.")) ∧
    (TilesetSourceFs.close ⟨none⟩ =
      .error (.tilesetError "Source is not opened. Call open first.")) ∧
    (∀ fs dir key, fs (joinPath dir key) = none →
      TilesetSourceFs.getValue fs ⟨some dir⟩ key = .ok none) ∧
    (∀ n, TilesetSourceFs.close ⟨some n⟩ = .ok ⟨none⟩) ∧
    (∀ n', TilesetSourceFs.openSource ⟨none⟩ n' = .ok ⟨some n'⟩) := by
  refine ⟨fun n n' => rfl, fun listKeys => rfl, fun fs key => rfl, rfl, ?_,
    fun n => rfl, fun n' => rfl⟩
  intro fs dir key h
  simp [TilesetSourceFs.getValue, h]

/-- Witness for C10: on an opened source over an empty file system, getValue
returns absent rather than an error. -/
theorem c10_source_state_machine_witness :
    TilesetSourceFs.getValue (fun _ => none) ⟨some "dir"⟩ "key" = .ok none :=
  c10_source_state_machine.2.2.2.2.1 (fun _ => none) "dir" "key" rfl
